import Mathlib

/-
Verification of the Driver/Evaluator orchestration core
(sostrades_core/execution_engine/proxy_driver_evaluator.py).

The Python code is shallowly embedded: pandas dataframes become lists of
row records, the data manager becomes a partial map from full variable
names to entries carrying a value and an editable flag, and the stateful
configuration passes become explicit state-passing functions.  Python
string operations (splitting, containment, replacement) are re-implemented
over character lists with the exact semantics of the corresponding Python
methods, so that every key manipulation of the source is mirrored.
-/

namespace DriverEval

/-! ## Python string primitives -/

/-- Split a character list around the first occurrence of `sep`
(`sep` assumed nonempty wherever the source uses it); returns the parts
before and after the separator, or `none` when `sep` does not occur. -/
def splitFirstAux (sep : List Char) : List Char → Option (List Char × List Char)
  | [] => none
  | c :: rest =>
    if sep.isPrefixOf (c :: rest) then some ([], (c :: rest).drop sep.length)
    else (splitFirstAux sep rest).map (fun p => (c :: p.1, p.2))

/-- Python `sub in s` (substring containment). -/
def pyContains (s sub : String) : Bool :=
  sub.toList.isEmpty || (splitFirstAux sub.toList s.toList).isSome

/-- Python `s.split(sep, 1)[0]`. -/
def pySplitOnceHead (s sep : String) : String :=
  match splitFirstAux sep.toList s.toList with
  | some p => String.mk p.1
  | none => s

/-- Python `s.split(sep, 1)[-1]`: the part after the first occurrence of
`sep`, or the whole string when `sep` does not occur. -/
def pySplitOnceTail (s sep : String) : String :=
  match splitFirstAux sep.toList s.toList with
  | some p => String.mk p.2
  | none => s

/-- Fueled worker for Python `s.split(sep)` (fuel bounds the number of
separator occurrences; `length s + 1` always suffices). -/
def splitAllAux (sep : List Char) : Nat → List Char → List (List Char)
  | 0, s => [s]
  | fuel + 1, s =>
    match splitFirstAux sep s with
    | none => [s]
    | some p => p.1 :: splitAllAux sep fuel p.2

/-- Python `s.split(sep)`. -/
def pySplitOn (s sep : String) : List String :=
  (splitAllAux sep.toList (s.toList.length + 1) s.toList).map String.mk

/-- Python `s.split(sep)[-1]`. -/
def pySplitLast (s sep : String) : String :=
  (pySplitOn s sep).getLastD s

/-- Fueled worker for Python `s.replace(pat, rep)`. -/
def replaceAllAux (pat rep : List Char) : Nat → List Char → List Char
  | 0, s => s
  | fuel + 1, s =>
    match splitFirstAux pat s with
    | none => s
    | some p => p.1 ++ rep ++ replaceAllAux pat rep fuel p.2

/-- Python `s.replace(pat, rep)` (all occurrences, `pat` nonempty at the
call sites of the source). -/
def pyReplace (s pat rep : String) : String :=
  String.mk (replaceAllAux pat.toList rep.toList (s.toList.length + 1) s.toList)

/-! ## Data manager

The data manager (consumed via `get_value` / `set_values_from_dict` /
`check_data_in_dm` / `set_data`) is a partial map from full variable names
to entries holding a value and the `editable` attribute. -/

/-- One data-manager entry: the variable value and its `editable` flag. -/
structure DmEntry (V : Type) where
  value : V
  editable : Bool
deriving DecidableEq, Repr

/-- The data manager: a partial map from full names to entries. -/
def Dm (V : Type) := String → Option (DmEntry V)

/-- Data-manager `get_value`. -/
def Dm.getValue {V : Type} (dm : Dm V) (k : String) : Option V :=
  (dm k).map (fun e => e.value)

/-- The `editable` attribute of a data-manager entry. -/
def Dm.getEditable {V : Type} (dm : Dm V) (k : String) : Option Bool :=
  (dm k).map (fun e => e.editable)

/-- Data-manager `check_data_in_dm`. -/
def Dm.checkDataInDm {V : Type} (dm : Dm V) (k : String) : Bool :=
  (dm k).isSome

/-- Single-key value write (point form of `set_values_from_dict`); keys
are only written when present, as the source always filters written keys
through `check_data_in_dm` first. -/
def Dm.setValue {V : Type} (dm : Dm V) (k : String) (v : V) : Dm V :=
  fun q => if q = k then (dm k).map (fun e => { e with value := v }) else dm q

/-- Data-manager `set_data(key, 'editable', b)`. -/
def Dm.setEditable {V : Type} (dm : Dm V) (k : String) (b : Bool) : Dm V :=
  fun q => if q = k then (dm k).map (fun e => { e with editable := b }) else dm q

/-- Data-manager `set_values_from_dict`. -/
def Dm.setValuesFromDict {V : Type} (dm : Dm V) (l : List (String × V)) : Dm V :=
  l.foldl (fun d kv => d.setValue kv.1 kv.2) dm

/-- Keys of an association list. -/
def keysOf {V : Type} (l : List (String × V)) : List String :=
  l.map Prod.fst

/-- Python `dict` insertion: override the value in place when the key is
already bound, append otherwise. -/
def dictInsert {V : Type} (l : List (String × V)) (k : String) (v : V) : List (String × V) :=
  if l.any (fun p => p.1 = k) then
    l.map (fun p => if p.1 = k then (k, v) else p)
  else l ++ [(k, v)]

/-- Python `base.update(upd)` on dicts. -/
def dictUpdate {V : Type} (base upd : List (String × V)) : List (String × V) :=
  upd.foldl (fun acc kv => dictInsert acc kv.1 kv.2) base

/-! ## Scenario table validation (check_scatter_list_validity / build_tool)

Embedding of `check_scatter_list_validity`, `build_tool` and
`check_data_integrity` of ProxyDriverEvaluator.  A `scenario_df` row
carries the `selected_scenario` flag and the `scenario_name`; the
free-form trade-variable columns play no role in duplicate detection. -/

/-- One row of the `scenario_df` input table. -/
structure ScenarioRow where
  selected : Bool
  name : String
deriving DecidableEq, Repr

/-- Names of the rows with `selected_scenario == True`, in table order
(`scenario_df[scenario_df[SELECTED_SCENARIO] == True][SCENARIO_NAME]`). -/
def selectedScenarioNames (rows : List ScenarioRow) : List String :=
  (rows.filter (fun r => r.selected)).map (fun r => r.name)

/-- The list `[sc for sc in set_sc_names if scenario_names.count(sc) > 1]`
of repeated selected names (the Python set is modelled by `dedup`; set
iteration order is unspecified in Python). -/
def repeatedElements (names : List String) : List String :=
  names.dedup.filter (fun sc => 1 < names.count sc)

/-- The human-readable message built by `check_scatter_list_validity`
from the repeated names. -/
def scatterIntegrityMsg (repeated : List String) : String :=
  match repeated with
  | [] => ""
  | r :: rest =>
    "Cannot activate several scenarios with the same name (" ++ r ++
      rest.foldl (fun acc sc => acc ++ ", " ++ sc) "" ++ ")."

/-- Embedding of `check_scatter_list_validity`: returns the pair
`(scatter_list_valid, scatter_list_integrity_msg)`. -/
def checkScatterListValidity (scenarioDfPresent : Bool) (rows : List ScenarioRow) :
    Bool × String :=
  if scenarioDfPresent then
    let scenarioNames := selectedScenarioNames rows
    if scenarioNames.length ≠ scenarioNames.dedup.length then
      (false, scatterIntegrityMsg (repeatedElements scenarioNames))
    else (true, "")
  else (true, "")

/-- Embedding of `build_tool`: the tool builds exactly when it exists and
the scatter list is valid. -/
def buildToolPerformsBuild (builderToolExists scatterListValid : Bool) : Bool :=
  builderToolExists && scatterListValid

/-- Embedding of `check_data_integrity`: the message attached to the
`scenario_df` input integrity metadata (`none` when nothing is attached,
no exception is ever raised). -/
def checkDataIntegrityAttachedMsg (scenarioDfPresent scatterListValid : Bool)
    (msg : String) : Option String :=
  if scenarioDfPresent && !scatterListValid then some msg else none

/-! ## Mode and reference constants of ProxyDriverEvaluator -/

/-- Builder-mode value `multi_instance` (from DriverEvaluatorWrapper). -/
def MULTI_INSTANCE : String := "multi_instance"

/-- Builder-mode value `mono_instance` (from DriverEvaluatorWrapper). -/
def MONO_INSTANCE : String := "mono_instance"

/-- Builder-mode value `regular_build` (from DriverEvaluatorWrapper). -/
def REGULAR_BUILD : String := "regular_build"

/-- Reference-mode value `linked_mode`. -/
def LINKED_MODE : String := "linked_mode"

/-- Reference-mode value `copy_mode`. -/
def COPY_MODE : String := "copy_mode"

/-- The reserved reference scenario name. -/
def REFERENCE_SCENARIO_NAME : String := "ReferenceScenario"

/-- Pending-import status value meaning no sub-process use-case import is
pending. -/
def NO_SP_UC_IMPORT : String := "No_SP_UC_Import"

/-- Pending-import status value meaning an import is pending. -/
def SP_UC_IMPORT : String := "SP_UC_Import"

/-! ## is_configured (multi-instance, instantiated reference)

Embedding of `is_configured` (lines 531-551).  `superConfigured` stands
for `super().is_configured()` (own structuring inputs stabilized, code in
the ProxyDiscipline base class outside this file) and
`subprocessConfigured` for `subprocess_is_configured()` (every child
discipline reports configured). -/

/-- The configuration view of the driver used by `is_configured`:
presence flags of the dynamic inputs, the two inherited configuration
statuses, the result of `check_if_there_are_reference_variables_changes`
and the pending-import status. -/
structure ConfigView (V : Type) where
  builderModePresent : Bool
  builderMode : String
  instanceReferencePresent : Bool
  instanceReference : Bool
  scenarioDfPresent : Bool
  superConfigured : Bool
  subprocessConfigured : Bool
  refChangesDict : List (String × V)
  subProcImportUsecaseStatus : String

/-- Embedding of `is_configured`: the Python `if` chain, where a branch
that does not return falls through to the final
`super().is_configured() and self.subprocess_is_configured()`. -/
def isConfigured {V : Type} [DecidableEq V] (s : ConfigView V) : Bool :=
  if s.builderModePresent then
    if s.builderMode = MULTI_INSTANCE then
      if s.instanceReferencePresent && s.instanceReference then
        if s.scenarioDfPresent then
          s.superConfigured && s.subprocessConfigured &&
            s.refChangesDict.isEmpty &&
            decide (s.subProcImportUsecaseStatus = NO_SP_UC_IMPORT)
        else s.superConfigured && s.subprocessConfigured
      else s.superConfigured && s.subprocessConfigured
    else s.superConfigured && s.subprocessConfigured
  else s.superConfigured && s.subprocessConfigured

/-! ## Use-case import (update_reference_from_anonymised_dict)

Embedding of `put_anonymized_input_dict_in_sub_process_context` and of the
data-pushing part of `update_reference_from_anonymised_dict` (lines
728-802; the modal bookkeeping of previous use-case names is outside
the contract of the importing step). -/

/-- Embedding of `put_anonymized_input_dict_in_sub_process_context`:
substitute the anonymization placeholder with the target root path in
every key, accumulating into a Python dict. -/
def putAnonymizedInputDictInSubProcessContext {V : Type}
    (anonymized : List (String × V)) (placeholder refDisciplineFullName : String) :
    List (String × V) :=
  anonymized.foldl
    (fun acc kv => dictInsert acc (pyReplace kv.1 placeholder refDisciplineFullName) kv.2) []

/-- Embedding of the import part of `update_reference_from_anonymised_dict`:
translate the anonymized dict, filter it through `check_data_in_dm`, push
the filtered subset with `set_values_from_dict`, and reset the pending
status exactly when the filtered dict has as many keys as the translated
one.  Returns the new data manager, the new status and the filtered dict. -/
def updateReferenceFromAnonymisedDict {V : Type} (dm : Dm V) (status : String)
    (anonymized : List (String × V)) (placeholder refDisciplineFullName : String) :
    Dm V × String × List (String × V) :=
  let inputDictFromUsecase :=
    putAnonymizedInputDictInSubProcessContext anonymized placeholder refDisciplineFullName
  let filteredImportDict :=
    inputDictFromUsecase.filter (fun kv => dm.checkDataInDm kv.1)
  let dm2 := dm.setValuesFromDict filteredImportDict
  let areAllDataSet := filteredImportDict.length = inputDictFromUsecase.length
  let status2 := if areAllDataSet then NO_SP_UC_IMPORT else status
  (dm2, status2, filteredImportDict)

/-! ## Possible eval inputs and outputs (fill_possible_values)

Embedding of `fill_possible_values` (lines 579-634).  The set of keys of
`ProxyCoupling.DESC_IN` (the coupling numerical/housekeeping inputs,
declared in a class outside this file) is a parameter `couplingKeys`. -/

/-- The evaluable input types `['float', 'array', 'int', 'string']`. -/
def EVAL_INPUT_TYPE : List String := ["float", "array", "int", "string"]

/-- The multiplier-particle marker `__MULTIPLIER__`. -/
def MULTIPLIER_PARTICULE : String := "__MULTIPLIER__"

/-- One entry of a sub-discipline `data_in`: the short key, the resolved
full name, the declared type, the structuring and editable flags and
whether the data manager records its `io_type` as `'in'`. -/
structure InVarRecord where
  key : String
  fullId : String
  typ : String
  structuring : Bool
  editable : Bool
  ioTypeIn : Bool
deriving DecidableEq, Repr

/-- One entry of a sub-discipline `data_out`: short key and full name. -/
structure OutVarRecord where
  key : String
  fullId : String
deriving DecidableEq, Repr

/-- Anonymization of a full name with respect to the driver node:
`full_id.split(f'{driver}.', 1)[1]` (the part after the driver prefix). -/
def anonymizeWrtDriver (driverFullName fullId : String) : String :=
  pySplitOnceTail fullId (driverFullName ++ ".")

/-- Admission test for a possible eval input: an `'in'` variable, not a
coupling numerical key, not structuring, editable, of an evaluable type
and not a multiplier particle. -/
def inputAdmissible (couplingKeys : List String) (r : InVarRecord) : Bool :=
  r.ioTypeIn && !couplingKeys.contains r.key && !r.structuring && r.editable &&
    EVAL_INPUT_TYPE.contains r.typ && !pyContains r.key MULTIPLIER_PARTICULE

/-- Admission test for a possible eval output: any output that is not a
coupling numerical key nor `residuals_history`. -/
def outputAdmissible (couplingKeys : List String) (r : OutVarRecord) : Bool :=
  !(couplingKeys.contains r.key || r.key = "residuals_history")

/-- Embedding of the input half of `fill_possible_values` for one
sub-discipline (the Python set of anonymized names, as a list). -/
def fillPossibleValuesIn (couplingKeys : List String) (driverFullName : String)
    (dataIn : List InVarRecord) : List String :=
  (dataIn.filter (inputAdmissible couplingKeys)).map
    (fun r => anonymizeWrtDriver driverFullName r.fullId)

/-- Embedding of the output half of `fill_possible_values` for one
sub-discipline. -/
def fillPossibleValuesOut (couplingKeys : List String) (driverFullName : String)
    (dataOut : List OutVarRecord) : List String :=
  (dataOut.filter (outputAdmissible couplingKeys)).map
    (fun r => anonymizeWrtDriver driverFullName r.fullId)

/-! ## Builder-mode state machine (prepare_build)

Embedding of `prepare_build` (lines 446-474).  The side effects are
recorded as an ordered event trace: the teardown calls `clean_children`
and `clean_sub_builders`, the production of builders for the current
mode, and the `ValueError` raised on an unknown mode. -/

/-- Observable events of one `prepare_build` call, in program order. -/
inductive BuildEvent where
  | cleanChildren
  | cleanSubBuilders
  | buildersForMode (mode : String)
  | wrongModeError
deriving DecidableEq, Repr

/-- The mode-specific builder state of the driver: the last built mode
(`old_builder_mode`, initially `None`), and whether `eval_process_builder`
and `builder_tool` are instantiated (not `None`). -/
structure BuildState where
  oldBuilderMode : Option String
  evalProcessBuilderSet : Bool
  builderToolSet : Bool
deriving DecidableEq, Repr

/-- Embedding of `prepare_build`: given the presence and value of the
`builder_mode` input, perform the teardown when the mode changed, reset
the mode-specific builder state of the mode being left, and then produce
the builders for the current mode.  Returns the new state and the event
trace. -/
def prepareBuildStep (builderModePresent : Bool) (builderMode : Option String)
    (st : BuildState) : BuildState × List BuildEvent :=
  if builderModePresent then
    let changed := builderMode ≠ st.oldBuilderMode
    let st1 : BuildState :=
      if changed then
        { oldBuilderMode := builderMode
          evalProcessBuilderSet :=
            if st.oldBuilderMode = some MONO_INSTANCE then false else st.evalProcessBuilderSet
          builderToolSet :=
            if st.oldBuilderMode = some MULTI_INSTANCE then false else st.builderToolSet }
      else st
    let teardown : List BuildEvent :=
      if changed then [BuildEvent.cleanChildren, BuildEvent.cleanSubBuilders] else []
    match builderMode with
    | some m =>
      if m = MULTI_INSTANCE || m = MONO_INSTANCE || m = REGULAR_BUILD then
        (st1, teardown ++ [BuildEvent.buildersForMode m])
      else (st1, teardown ++ [BuildEvent.wrongModeError])
    | none => (st1, teardown)
  else (st, [])

/-! ## Auto-activation of generated samples (setup_sos_disciplines)

Embedding of the scenario_df regeneration of `setup_sos_disciplines`
(lines 341-361): when a changed generated-samples table imposes a new
`scenario_df`, every row is selected exactly when the scenario count does
not exceed the cap (or the cap is `None`), a warning is logged otherwise,
and row `i` is named `'scenario_' + str(i + 1)`. -/

/-- The cap `MAX_SAMPLE_AUTO_BUILD_SCENARIOS = 1024` (`None` would mean
always build). -/
def MAX_SAMPLE_AUTO_BUILD_SCENARIOS : Option Nat := some 1024

/-- One row of the regenerated scenario_df (trade-variable columns come
verbatim from the generated samples and are not rebuilt here). -/
structure GeneratedRow where
  selected : Bool
  name : String
deriving DecidableEq, Repr

/-- Embedding of the scenario_df regeneration: returns the new rows and
whether the over-cap warning is logged. -/
def scenarioDfFromGeneratedSamples (cap : Option Nat) (nScenarios : Nat) :
    List GeneratedRow × Bool :=
  let autoSelect :=
    match cap with
    | none => true
    | some c => decide (nScenarios ≤ c)
  ((List.range nScenarios).map
      (fun i => { selected := autoSelect, name := "scenario_" ++ toString (i + 1) }),
    !autoSelect)

/-! ## Reference-to-sibling propagation (multi-instance, instantiated reference)

Embedding of the non-trade-variable propagation part of
`configure_subprocesses_with_driver_input` (lines 1106-1157) and of the
functions it calls: `get_reference_non_trade_variables_changes`,
`transform_dict_from_reference_to_other_scenarios`,
`save_original_editability_state`,
`modify_editable_attribute_according_to_reference_mode` and
`propagate_reference_non_trade_variables`.  The use-case import performed
at line 1122 acts before this sequence and is modelled separately
(`updateReferenceFromAnonymisedDict`); the data manager passed to a pass
is the post-import one. -/

/-- Static configuration of a multi-instance driver with instantiated
reference: its node short name, the `reference_mode` input, the input
full names of the reference scenario sub-tree
(`ref_discipline.get_input_data_names()`), the trade-variable columns of
`scenario_df`, and the first names reported by
`get_other_evaluators_names_and_mode_under_current_one` (empty when no
nested driver evaluator exists under the scenarios). -/
structure DriverParams where
  sosName : String
  referenceMode : String
  refInputs : List String
  tradeVars : List String
  otherEvaluatorNames : List String

/-- Mutable driver state touched by one propagation pass. -/
structure DriverState (V : Type) where
  dm : Dm V
  oldRefDict : List (String × V)
  oldScenarioNames : List String
  thereAreNewScenarios : Bool
  saveEditableAttr : Bool
  originalEditableDictNonRef : List (String × Bool)

/-- The reference dict of `get_reference_non_trade_variables_changes`: the
current value of every reference input whose short name (the part after
the last `'ReferenceScenario.'`) is not a trade-variable column. -/
def refDictFun {V : Type} (refInputs tradeVars : List String) (dm : Dm V) :
    List (String × V) :=
  refInputs.filterMap (fun k =>
    if tradeVars.all (fun tv => pySplitLast k (REFERENCE_SCENARIO_NAME ++ ".") ≠ tv) then
      (dm.getValue k).map (fun v => (k, v))
    else none)

/-- The changed-reference dict of `get_reference_non_trade_variables_changes`:
the entries of the reference dict that are absent from the previous
snapshot or differ from it. -/
def refChangesFun {V : Type} [DecidableEq V] (refDict oldRefDict : List (String × V)) :
    List (String × V) :=
  refDict.filter (fun kv =>
    match oldRefDict.lookup kv.1 with
    | none => true
    | some w => decide (¬ kv.2 = w))

/-- The key rewriting of `transform_dict_from_reference_to_other_scenarios`
for one scenario name. -/
def transformKey (sosName sc key : String) : String :=
  if pyContains key REFERENCE_SCENARIO_NAME && pyContains key sosName then
    pySplitOnceHead key sosName ++ sosName ++ "." ++ sc ++
      pySplitOnceTail (pySplitOnceTail key sosName) REFERENCE_SCENARIO_NAME
  else if pyContains key REFERENCE_SCENARIO_NAME then
    pySplitOnceHead key REFERENCE_SCENARIO_NAME ++ sc ++
      pySplitOnceTail key REFERENCE_SCENARIO_NAME
  else key

/-- Embedding of `transform_dict_from_reference_to_other_scenarios`: remap
every reference key to every scenario, keeping only keys known to the
data manager. -/
def transformDictFromReferenceToOtherScenarios {V : Type} (dm : Dm V) (sosName : String)
    (scenarioNames : List String) (dictFromRef : List (String × V)) :
    List (String × V) :=
  dictFromRef.flatMap (fun kv =>
    scenarioNames.filterMap (fun sc =>
      let nk := transformKey sosName sc kv.1
      if dm.checkDataInDm nk then some (nk, kv.2) else none))

/-- Python `set(a) == set(b)` on name lists. -/
def sameSet (a b : List String) : Bool :=
  a.all (fun x => b.contains x) && b.all (fun x => a.contains x)

/-- Embedding of `save_original_editable_attr_from_non_trade_variables`:
snapshot the current `editable` attribute of every key of the dict (every
such key exists in the data manager on the code path, having been
filtered through `check_data_in_dm`). -/
def saveOriginalEditableAttr {V : Type} (dm : Dm V) (l : List (String × V)) :
    List (String × Bool) :=
  l.filterMap (fun kv => (dm.getEditable kv.1).map (fun b => (kv.1, b)))

/-- Set the `editable` attribute of every key of a list. -/
def setEditableAll {V : Type} (dm : Dm V) (keysList : List String) (b : Bool) : Dm V :=
  keysList.foldl (fun d k => d.setEditable k b) dm

/-- Embedding of `modify_editable_attribute_according_to_reference_mode`:
in linked mode every non-trade sibling variable is forced read-only; in
copy mode the keys that were originally editable (and do not belong to a
nested driver evaluator) are set back to editable.  A key missing from
the original-editability snapshot would raise a `KeyError` in Python and
does not occur on the modelled code path; it is a no-op here. -/
def modifyEditableAttributeAccordingToReferenceMode {V : Type} (referenceMode : String)
    (otherEvaluatorNames : List String) (origEditable : List (String × Bool))
    (keysList : List String) (dm : Dm V) : Dm V :=
  if referenceMode = LINKED_MODE then
    setEditableAll dm keysList false
  else if referenceMode = COPY_MODE then
    keysList.foldl (fun d k =>
      let restore := (origEditable.lookup k).getD false
      if otherEvaluatorNames.isEmpty then
        (if restore then d.setEditable k true else d)
      else if otherEvaluatorNames.any (fun e => !pyContains k e) then
        (if restore then d.setEditable k true else d)
      else d) dm
  else dm

/-- Embedding of `propagate_reference_non_trade_variables`: update the
reference snapshot when there are changes, build the dict to propagate
(full reference dict in linked mode, changed entries only in copy mode)
and push it if and only if the driver has registered new scenarios or
some reference value changed.  Returns the new data manager, the new
snapshot and the pushed dict (`[]` exactly when `set_values_from_dict`
is not called). -/
def propagateReferenceNonTradeVariables {V : Type} (p : DriverParams)
    (scenarioNames : List String) (dm : Dm V) (thereAreNewScenarios : Bool)
    (oldRefDict refChanges refDict : List (String × V)) :
    Dm V × List (String × V) × List (String × V) :=
  let oldRef2 := if refChanges.isEmpty then oldRefDict else refDict
  let dictToPropagate :=
    if p.referenceMode = LINKED_MODE then
      transformDictFromReferenceToOtherScenarios dm p.sosName scenarioNames refDict
    else if p.referenceMode = COPY_MODE && !refChanges.isEmpty then
      transformDictFromReferenceToOtherScenarios dm p.sosName scenarioNames refChanges
    else []
  let pushed :=
    if thereAreNewScenarios then
      (if dictToPropagate.isEmpty then [] else dictToPropagate)
    else
      (if !refChanges.isEmpty && !dictToPropagate.isEmpty then dictToPropagate else [])
  (dm.setValuesFromDict pushed, oldRef2, pushed)

/-- The reference dict computed by a pass (`ref_dict`, line 1124). -/
def refDictOf {V : Type} (p : DriverParams) (st : DriverState V) : List (String × V) :=
  refDictFun p.refInputs p.tradeVars st.dm

/-- The changed-reference dict computed by a pass (`ref_changes_dict`). -/
def refChangesOf {V : Type} [DecidableEq V] (p : DriverParams) (st : DriverState V) :
    List (String × V) :=
  refChangesFun (refDictOf p st) st.oldRefDict

/-- The sibling remap of the full reference dict
(`scenarios_non_trade_vars_dict`, line 1127). -/
def scenariosNonTradeVarsDictOf {V : Type} (p : DriverParams)
    (scenarioNames : List String) (st : DriverState V) : List (String × V) :=
  transformDictFromReferenceToOtherScenarios st.dm p.sosName scenarioNames (refDictOf p st)

/-- The scenario-set-change test of line 1133:
`not set(scenario_names) == set(old_scenario_names) and old_scenario_names != []`. -/
def scenarioSetChangedOf {V : Type} (scenarioNames : List String) (st : DriverState V) : Bool :=
  !sameSet scenarioNames st.oldScenarioNames && !st.oldScenarioNames.isEmpty

/-- The original-editability dict after the new-scenario bookkeeping of
lines 1133-1144: for every new scenario, snapshot the current `editable`
attribute of its keys into the dict. -/
def origEdAfterNewScenariosOf {V : Type} (p : DriverParams) (scenarioNames : List String)
    (st : DriverState V) : List (String × Bool) :=
  if scenarioSetChangedOf scenarioNames st then
    (scenarioNames.filter (fun sc => !st.oldScenarioNames.contains sc)).foldl
      (fun acc sc =>
        dictUpdate acc (saveOriginalEditableAttr st.dm
          ((scenariosNonTradeVarsDictOf p scenarioNames st).filter
            (fun kv => pyContains kv.1 sc))))
      st.originalEditableDictNonRef
  else st.originalEditableDictNonRef

/-- The original-editability dict after `save_original_editability_state`
(line 1149), which replaces the dict wholesale on the first pass only. -/
def origEdAfterSaveOf {V : Type} (p : DriverParams) (scenarioNames : List String)
    (st : DriverState V) : List (String × Bool) :=
  if st.saveEditableAttr then
    saveOriginalEditableAttr st.dm (scenariosNonTradeVarsDictOf p scenarioNames st)
  else origEdAfterNewScenariosOf p scenarioNames st

/-- The data manager after
`modify_editable_attribute_according_to_reference_mode` (line 1153). -/
def dmAfterEditableOf {V : Type} (p : DriverParams) (scenarioNames : List String)
    (st : DriverState V) : Dm V :=
  modifyEditableAttributeAccordingToReferenceMode p.referenceMode p.otherEvaluatorNames
    (origEdAfterSaveOf p scenarioNames st)
    (keysOf (scenariosNonTradeVarsDictOf p scenarioNames st)) st.dm

/-- The `there_are_new_scenarios` flag after a pass: set when the
scenario set changed, and never reset once set. -/
def thereAreNewOf {V : Type} (scenarioNames : List String) (st : DriverState V) : Bool :=
  st.thereAreNewScenarios || scenarioSetChangedOf scenarioNames st

/-- Embedding of one non-trade propagation pass of
`configure_subprocesses_with_driver_input` under `instance_reference`
(lines 1124-1157), for already-built sub-processes: compute the reference
dict and its changes, detect new scenarios (setting the driver-global
`there_are_new_scenarios` flag), maintain the original-editability
snapshots, modify the `editable` attributes according to the reference
mode, and propagate.  `scenarioNames` is the selected scenario name list
without the reference scenario (`scenario_names[:-1]`).  Returns the new
state and the pushed dict. -/
def configureSubprocessesNonTradePass {V : Type} [DecidableEq V] (p : DriverParams)
    (scenarioNames : List String) (st : DriverState V) :
    DriverState V × List (String × V) :=
  let res := propagateReferenceNonTradeVariables p scenarioNames
    (dmAfterEditableOf p scenarioNames st) (thereAreNewOf scenarioNames st)
    st.oldRefDict (refChangesOf p st) (refDictOf p st)
  ({ dm := res.1, oldRefDict := res.2.1, oldScenarioNames := scenarioNames,
     thereAreNewScenarios := thereAreNewOf scenarioNames st,
     saveEditableAttr := if st.saveEditableAttr then false else st.saveEditableAttr,
     originalEditableDictNonRef := origEdAfterSaveOf p scenarioNames st }, res.2.2)

/-- The `dict_to_propagate` built by `propagate_reference_non_trade_variables`
during a pass: the remapped full reference dict in linked mode, the
remapped changed entries in copy mode. -/
def dictToPropagateOf {V : Type} [DecidableEq V] (p : DriverParams)
    (scenarioNames : List String) (st : DriverState V) : List (String × V) :=
  if p.referenceMode = LINKED_MODE then
    transformDictFromReferenceToOtherScenarios (dmAfterEditableOf p scenarioNames st)
      p.sosName scenarioNames (refDictOf p st)
  else if p.referenceMode = COPY_MODE && !(refChangesOf p st).isEmpty then
    transformDictFromReferenceToOtherScenarios (dmAfterEditableOf p scenarioNames st)
      p.sosName scenarioNames (refChangesOf p st)
  else []

/-- The dict actually pushed by a pass (`[]` exactly when
`set_values_from_dict` is not called by
`propagate_reference_non_trade_variables`). -/
def pushedOf {V : Type} [DecidableEq V] (p : DriverParams) (scenarioNames : List String)
    (st : DriverState V) : List (String × V) :=
  if thereAreNewOf scenarioNames st then
    (if (dictToPropagateOf p scenarioNames st).isEmpty then []
     else dictToPropagateOf p scenarioNames st)
  else
    (if !(refChangesOf p st).isEmpty && !(dictToPropagateOf p scenarioNames st).isEmpty then
      dictToPropagateOf p scenarioNames st
     else [])

/-! ## Concrete example studies

Small concrete drivers used to instantiate the theorems and to exhibit
divergences.  Keys follow the real naming scheme
`<driver>.<scenario>.<variable>`. -/

/-- A linked-mode driver over one non-trade reference input `x`. -/
def egParamsLinked : DriverParams :=
  { sosName := "driver", referenceMode := LINKED_MODE,
    refInputs := ["driver.ReferenceScenario.x"], tradeVars := [],
    otherEvaluatorNames := [] }

/-- A copy-mode driver over one non-trade reference input `x`. -/
def egParamsCopy : DriverParams :=
  { sosName := "driver", referenceMode := COPY_MODE,
    refInputs := ["driver.ReferenceScenario.x"], tradeVars := [],
    otherEvaluatorNames := [] }

/-- A copy-mode driver over two non-trade reference inputs `x` and `y`. -/
def egParamsCopyXY : DriverParams :=
  { sosName := "driver", referenceMode := COPY_MODE,
    refInputs := ["driver.ReferenceScenario.x", "driver.ReferenceScenario.y"],
    tradeVars := [], otherEvaluatorNames := [] }

/-- Data manager where the reference `x` still holds its snapshot value 5
while the sibling `sc1` has diverged to 7. -/
def egDmStale : Dm Int := fun k =>
  if k = "driver.ReferenceScenario.x" then some { value := 5, editable := true }
  else if k = "driver.sc1.x" then some { value := 7, editable := true }
  else none

/-- State for `egDmStale`: snapshot up to date, no new scenarios. -/
def egStStale : DriverState Int :=
  { dm := egDmStale, oldRefDict := [("driver.ReferenceScenario.x", 5)],
    oldScenarioNames := ["sc1"], thereAreNewScenarios := false,
    saveEditableAttr := false,
    originalEditableDictNonRef := [("driver.sc1.x", true)] }

/-- Data manager where the reference `x` changed to 9 while the sibling
`sc1` still holds 5. -/
def egDmChanged : Dm Int := fun k =>
  if k = "driver.ReferenceScenario.x" then some { value := 9, editable := true }
  else if k = "driver.sc1.x" then some { value := 5, editable := true }
  else none

/-- State for `egDmChanged`: the snapshot still records 5 for the
reference `x`, so the pass sees a reference change. -/
def egStChanged : DriverState Int :=
  { dm := egDmChanged, oldRefDict := [("driver.ReferenceScenario.x", 5)],
    oldScenarioNames := ["sc1"], thereAreNewScenarios := false,
    saveEditableAttr := false,
    originalEditableDictNonRef := [("driver.sc1.x", true)] }

/-- Data manager with two reference inputs, where `x` changed to 9 and
`y` kept its snapshot value 20. -/
def egDmXY : Dm Int := fun k =>
  if k = "driver.ReferenceScenario.x" then some { value := 9, editable := true }
  else if k = "driver.ReferenceScenario.y" then some { value := 20, editable := true }
  else if k = "driver.sc1.x" then some { value := 5, editable := true }
  else if k = "driver.sc1.y" then some { value := 20, editable := true }
  else none

/-- State for `egDmXY`. -/
def egStXY : DriverState Int :=
  { dm := egDmXY,
    oldRefDict := [("driver.ReferenceScenario.x", 5), ("driver.ReferenceScenario.y", 20)],
    oldScenarioNames := ["sc1"], thereAreNewScenarios := false,
    saveEditableAttr := false,
    originalEditableDictNonRef := [("driver.sc1.x", true), ("driver.sc1.y", true)] }

/-- Data manager after the sibling `sc1.x` was edited independently to 3
and the unrelated reference `y` changed to 21. -/
def egDmXYLater : Dm Int := fun k =>
  if k = "driver.ReferenceScenario.x" then some { value := 9, editable := true }
  else if k = "driver.ReferenceScenario.y" then some { value := 21, editable := true }
  else if k = "driver.sc1.x" then some { value := 3, editable := true }
  else if k = "driver.sc1.y" then some { value := 20, editable := true }
  else none

/-- State for `egDmXYLater`: the snapshot already records the propagated
state of the first pass. -/
def egStXYLater : DriverState Int :=
  { dm := egDmXYLater,
    oldRefDict := [("driver.ReferenceScenario.x", 9), ("driver.ReferenceScenario.y", 20)],
    oldScenarioNames := ["sc1"], thereAreNewScenarios := false,
    saveEditableAttr := false,
    originalEditableDictNonRef := [("driver.sc1.x", true), ("driver.sc1.y", true)] }

/-- Data manager where a new scenario `sc2` exists with the built default
0 for `x`, while reference and `sc1` hold 5. -/
def egDmNewScenario : Dm Int := fun k =>
  if k = "driver.ReferenceScenario.x" then some { value := 5, editable := true }
  else if k = "driver.sc1.x" then some { value := 5, editable := true }
  else if k = "driver.sc2.x" then some { value := 0, editable := true }
  else none

/-- State for `egDmNewScenario`: `sc2` was just added to the scenario
table, the reference did not change. -/
def egStNewScenario : DriverState Int :=
  { dm := egDmNewScenario, oldRefDict := [("driver.ReferenceScenario.x", 5)],
    oldScenarioNames := ["sc1"], thereAreNewScenarios := false,
    saveEditableAttr := false,
    originalEditableDictNonRef := [("driver.sc1.x", true)] }

/-- Fully converged linked-mode data manager: both siblings mirror the
reference value 5 and are read-only. -/
def egDmConverged : Dm Int := fun k =>
  if k = "driver.ReferenceScenario.x" then some { value := 5, editable := true }
  else if k = "driver.sc1.x" then some { value := 5, editable := false }
  else if k = "driver.sc2.x" then some { value := 5, editable := false }
  else none

/-- State for `egDmConverged` on a pass where the sticky
`there_are_new_scenarios` flag is already set (a scenario was added on an
earlier pass; the flag is never reset) and nothing changed since the
previous completed pass. -/
def egStSticky : DriverState Int :=
  { dm := egDmConverged, oldRefDict := [("driver.ReferenceScenario.x", 5)],
    oldScenarioNames := ["sc1", "sc2"], thereAreNewScenarios := true,
    saveEditableAttr := false,
    originalEditableDictNonRef := [("driver.sc1.x", true), ("driver.sc2.x", true)] }

/-- A multi-instance configuration view with an instantiated reference
and one pending un-propagated reference change. -/
def egConfigPending : ConfigView Int :=
  { builderModePresent := true, builderMode := MULTI_INSTANCE,
    instanceReferencePresent := true, instanceReference := true,
    scenarioDfPresent := true, superConfigured := true,
    subprocessConfigured := true,
    refChangesDict := [("driver.ReferenceScenario.x", 9)],
    subProcImportUsecaseStatus := NO_SP_UC_IMPORT }

/-- The same view once the pending change has been propagated. -/
def egConfigReady : ConfigView Int :=
  { egConfigPending with refChangesDict := [] }

/-- Data manager of a partially configured import target: only the
translated key `Study.Ref.a` is known. -/
def egDmImport : Dm Int := fun k =>
  if k = "Study.Ref.a" then some { value := 1, editable := true } else none

/-- An anonymized use-case dict with two keys, of which only `a` exists
in `egDmImport` after translation. -/
def egAnonymizedDict : List (String × Int) :=
  [("<study_ph>.a", 10), ("<study_ph>.b", 20)]

/-! ## Supporting lemmas -/

theorem keysOf_nil {V : Type} : keysOf ([] : List (String × V)) = [] := rfl

theorem keysOf_cons {V : Type} (kv : String × V) (rest : List (String × V)) :
    keysOf (kv :: rest) = kv.1 :: keysOf rest := rfl

theorem mem_keysOf {V : Type} {l : List (String × V)} {k : String} :
    k ∈ keysOf l ↔ ∃ kv ∈ l, kv.1 = k := by
  simp [keysOf]

theorem setValuesFromDict_nil {V : Type} (dm : Dm V) : dm.setValuesFromDict [] = dm := rfl

theorem setValuesFromDict_cons {V : Type} (dm : Dm V) (kv : String × V)
    (rest : List (String × V)) :
    dm.setValuesFromDict (kv :: rest) = (dm.setValue kv.1 kv.2).setValuesFromDict rest := rfl

theorem setValue_apply_ne {V : Type} (dm : Dm V) (k : String) (v : V) (q : String)
    (h : ¬ q = k) : dm.setValue k v q = dm q := by
  simp [Dm.setValue, h]

theorem setValue_apply_self {V : Type} (dm : Dm V) (k : String) (v : V) :
    dm.setValue k v k = (dm k).map (fun e => { e with value := v }) := by
  simp [Dm.setValue]

theorem setValuesFromDict_apply_not_mem {V : Type} (l : List (String × V)) (dm : Dm V)
    (q : String) (h : ¬ q ∈ keysOf l) : dm.setValuesFromDict l q = dm q := by
  induction l generalizing dm with
  | nil => rfl
  | cons kv rest ih =>
    rw [keysOf_cons] at h
    rw [setValuesFromDict_cons, ih _ (fun hq => h (List.mem_cons_of_mem _ hq))]
    exact setValue_apply_ne _ _ _ _ (fun hq => h (hq ▸ List.mem_cons_self _ _))

theorem setValuesFromDict_apply_mem {V : Type} (l : List (String × V)) (dm : Dm V)
    (k : String) (v : V) (hnd : (keysOf l).Nodup) (hm : (k, v) ∈ l) :
    dm.setValuesFromDict l k = (dm k).map (fun e => { e with value := v }) := by
  induction l generalizing dm with
  | nil => cases hm
  | cons kv rest ih =>
    rw [keysOf_cons] at hnd
    have hnd2 := List.nodup_cons.mp hnd
    rcases List.mem_cons.mp hm with heq | hmem
    · have hk1 : kv.1 = k := by rw [← heq]
      have hknotin : ¬ k ∈ keysOf rest := hk1 ▸ hnd2.1
      rw [setValuesFromDict_cons, setValuesFromDict_apply_not_mem rest _ k hknotin,
        ← heq, setValue_apply_self]
    · have hk : k ∈ keysOf rest := mem_keysOf.mpr ⟨(k, v), hmem, rfl⟩
      have hne : ¬ k = kv.1 := fun h => hnd2.1 (h ▸ hk)
      rw [setValuesFromDict_cons, ih _ hnd2.2 hmem, setValue_apply_ne _ _ _ _ hne]

theorem getValue_of_apply_mapValue {V : Type} (dm : Dm V) (k : String) (v : V)
    (hsome : (dm k).isSome = true) :
    ((dm k).map (fun e => { e with value := v })).map (fun e => e.value) = some v := by
  cases h : dm k with
  | none => rw [h] at hsome; cases hsome
  | some e => simp

theorem setValue_getEditable {V : Type} (dm : Dm V) (k : String) (v : V) (q : String) :
    (dm.setValue k v).getEditable q = dm.getEditable q := by
  by_cases h : q = k
  · subst h
    simp only [Dm.getEditable, Dm.setValue, if_pos rfl]
    cases dm q <;> simp
  · simp [Dm.getEditable, Dm.setValue, h]

theorem setValue_isSome {V : Type} (dm : Dm V) (k : String) (v : V) (q : String) :
    (dm.setValue k v q).isSome = (dm q).isSome := by
  by_cases h : q = k
  · subst h
    simp only [Dm.setValue, if_pos rfl]
    cases dm q <;> simp
  · simp [Dm.setValue, h]

theorem setEditable_getValue {V : Type} (dm : Dm V) (k : String) (b : Bool) (q : String) :
    (dm.setEditable k b).getValue q = dm.getValue q := by
  by_cases h : q = k
  · subst h
    simp only [Dm.getValue, Dm.setEditable, if_pos rfl]
    cases dm q <;> simp
  · simp [Dm.getValue, Dm.setEditable, h]

theorem setEditable_isSome {V : Type} (dm : Dm V) (k : String) (b : Bool) (q : String) :
    (dm.setEditable k b q).isSome = (dm q).isSome := by
  by_cases h : q = k
  · subst h
    simp only [Dm.setEditable, if_pos rfl]
    cases dm q <;> simp
  · simp [Dm.setEditable, h]

theorem foldl_getValue_invariant {V α : Type} (f : Dm V → α → Dm V)
    (hf : ∀ d a q, (f d a).getValue q = d.getValue q) (l : List α) (dm : Dm V)
    (q : String) : (l.foldl f dm).getValue q = dm.getValue q := by
  induction l generalizing dm with
  | nil => rfl
  | cons a rest ih => rw [List.foldl_cons, ih, hf]

theorem foldl_isSome_invariant {V α : Type} (f : Dm V → α → Dm V)
    (hf : ∀ d a q, (f d a q).isSome = (d q).isSome) (l : List α) (dm : Dm V)
    (q : String) : ((l.foldl f dm) q).isSome = (dm q).isSome := by
  induction l generalizing dm with
  | nil => rfl
  | cons a rest ih => rw [List.foldl_cons, ih, hf]

theorem foldl_getEditable_invariant {V α : Type} (f : Dm V → α → Dm V)
    (hf : ∀ d a q, (f d a).getEditable q = d.getEditable q) (l : List α) (dm : Dm V)
    (q : String) : (l.foldl f dm).getEditable q = dm.getEditable q := by
  induction l generalizing dm with
  | nil => rfl
  | cons a rest ih => rw [List.foldl_cons, ih, hf]

theorem setValuesFromDict_getEditable {V : Type} (l : List (String × V)) (dm : Dm V)
    (q : String) : (dm.setValuesFromDict l).getEditable q = dm.getEditable q := by
  unfold Dm.setValuesFromDict
  exact foldl_getEditable_invariant (fun d kv => d.setValue kv.1 kv.2)
    (fun d a q2 => setValue_getEditable d a.1 a.2 q2) l dm q

theorem setValuesFromDict_isSome {V : Type} (l : List (String × V)) (dm : Dm V)
    (q : String) : (dm.setValuesFromDict l q).isSome = (dm q).isSome := by
  unfold Dm.setValuesFromDict
  exact foldl_isSome_invariant (fun d kv => d.setValue kv.1 kv.2)
    (fun d a q2 => setValue_isSome d a.1 a.2 q2) l dm q

theorem setEditableAll_getValue {V : Type} (dm : Dm V) (keysList : List String) (b : Bool)
    (q : String) : (setEditableAll dm keysList b).getValue q = dm.getValue q :=
  foldl_getValue_invariant (fun d k => d.setEditable k b)
    (fun d a q2 => setEditable_getValue d a b q2) keysList dm q

theorem setEditableAll_isSome {V : Type} (dm : Dm V) (keysList : List String) (b : Bool)
    (q : String) : (setEditableAll dm keysList b q).isSome = (dm q).isSome :=
  foldl_isSome_invariant (fun d k => d.setEditable k b)
    (fun d a q2 => setEditable_isSome d a b q2) keysList dm q

theorem setEditableAll_apply_not_mem {V : Type} (dm : Dm V) (keysList : List String)
    (b : Bool) (q : String) (h : ¬ q ∈ keysList) : setEditableAll dm keysList b q = dm q := by
  induction keysList generalizing dm with
  | nil => rfl
  | cons k rest ih =>
    have hq : ¬ q ∈ rest := fun hq => h (List.mem_cons_of_mem _ hq)
    have hne : ¬ q = k := fun hq => h (hq ▸ List.mem_cons_self _ _)
    show setEditableAll (dm.setEditable k b) rest b q = dm q
    rw [ih _ hq]
    simp [Dm.setEditable, hne]

theorem getEditable_setEditable_self {V : Type} (dm : Dm V) (k : String) (b : Bool) :
    (dm.setEditable k b).getEditable k = (dm.getEditable k).map (fun _ => b) := by
  simp only [Dm.getEditable, Dm.setEditable, if_pos rfl]
  cases dm k <;> simp

theorem getEditable_setEditable_map_const {V : Type} (dm : Dm V) (k : String) (b : Bool)
    (q : String) :
    ((dm.setEditable k b).getEditable q).map (fun _ => b) =
      (dm.getEditable q).map (fun _ => b) := by
  by_cases h : q = k
  · subst h
    simp only [Dm.getEditable, Dm.setEditable, if_pos rfl]
    cases dm q <;> simp
  · simp [Dm.getEditable, Dm.setEditable, h]

theorem setEditableAll_getEditable_mem {V : Type} (dm : Dm V) (keysList : List String)
    (b : Bool) (q : String) (h : q ∈ keysList) :
    (setEditableAll dm keysList b).getEditable q = (dm.getEditable q).map (fun _ => b) := by
  induction keysList generalizing dm with
  | nil => cases h
  | cons k rest ih =>
    show (setEditableAll (dm.setEditable k b) rest b).getEditable q = _
    by_cases hq : q ∈ rest
    · rw [ih _ hq, getEditable_setEditable_map_const]
    · have hqk : q = k := by
        rcases List.mem_cons.mp h with h1 | h2
        · exact h1
        · exact absurd h2 hq
      subst hqk
      have hrest : setEditableAll (dm.setEditable q b) rest b q = (dm.setEditable q b) q :=
        setEditableAll_apply_not_mem _ _ _ _ hq
      unfold Dm.getEditable
      rw [hrest]
      simp only [Dm.setEditable, if_pos rfl]
      cases dm q <;> simp

theorem transform_mem_check {V : Type} {dm : Dm V} {sosName : String}
    {scenarioNames : List String} {d : List (String × V)} {kv : String × V}
    (h : kv ∈ transformDictFromReferenceToOtherScenarios dm sosName scenarioNames d) :
    dm.checkDataInDm kv.1 = true := by
  unfold transformDictFromReferenceToOtherScenarios at h
  rw [List.mem_flatMap] at h
  obtain ⟨kw, _, hmem⟩ := h
  rw [List.mem_filterMap] at hmem
  obtain ⟨sc, _, hif⟩ := hmem
  by_cases hc : dm.checkDataInDm (transformKey sosName sc kw.1) = true
  · rw [if_pos hc] at hif
    cases hif
    exact hc
  · rw [if_neg hc] at hif
    cases hif

theorem transform_mem_intro {V : Type} {dm : Dm V} {sosName : String}
    {scenarioNames : List String} {d : List (String × V)} {k : String} {v : V} {sc : String}
    (hm : (k, v) ∈ d) (hsc : sc ∈ scenarioNames)
    (hc : dm.checkDataInDm (transformKey sosName sc k) = true) :
    (transformKey sosName sc k, v) ∈
      transformDictFromReferenceToOtherScenarios dm sosName scenarioNames d := by
  unfold transformDictFromReferenceToOtherScenarios
  rw [List.mem_flatMap]
  refine ⟨(k, v), hm, ?_⟩
  rw [List.mem_filterMap]
  exact ⟨sc, hsc, by rw [if_pos hc]⟩

theorem transform_check_congr {V : Type} (dm1 dm2 : Dm V) (sosName : String)
    (scenarioNames : List String) (d : List (String × V))
    (h : ∀ q, dm1.checkDataInDm q = dm2.checkDataInDm q) :
    transformDictFromReferenceToOtherScenarios dm1 sosName scenarioNames d =
      transformDictFromReferenceToOtherScenarios dm2 sosName scenarioNames d := by
  unfold transformDictFromReferenceToOtherScenarios
  congr 1
  funext kv
  congr 1
  funext sc
  show (if dm1.checkDataInDm (transformKey sosName sc kv.1) = true then _ else _) = _
  rw [h]

theorem modifyEditable_getValue {V : Type} (referenceMode : String)
    (otherEvaluatorNames : List String) (origEditable : List (String × Bool))
    (keysList : List String) (dm : Dm V) (q : String) :
    (modifyEditableAttributeAccordingToReferenceMode referenceMode otherEvaluatorNames
      origEditable keysList dm).getValue q = dm.getValue q := by
  unfold modifyEditableAttributeAccordingToReferenceMode
  split
  · exact setEditableAll_getValue dm keysList false q
  · split
    · refine foldl_getValue_invariant _ (fun d a q2 => ?_) keysList dm q
      dsimp only
      split
      · split
        · exact setEditable_getValue d a true q2
        · rfl
      · split
        · split
          · exact setEditable_getValue d a true q2
          · rfl
        · rfl
    · rfl

theorem modifyEditable_isSome {V : Type} (referenceMode : String)
    (otherEvaluatorNames : List String) (origEditable : List (String × Bool))
    (keysList : List String) (dm : Dm V) (q : String) :
    (modifyEditableAttributeAccordingToReferenceMode referenceMode otherEvaluatorNames
      origEditable keysList dm q).isSome = (dm q).isSome := by
  unfold modifyEditableAttributeAccordingToReferenceMode
  split
  · exact setEditableAll_isSome dm keysList false q
  · split
    · refine foldl_isSome_invariant _ (fun d a q2 => ?_) keysList dm q
      dsimp only
      split
      · split
        · exact setEditable_isSome d a true q2
        · rfl
      · split
        · split
          · exact setEditable_isSome d a true q2
          · rfl
        · rfl
    · rfl

theorem pass_dm_eq {V : Type} [DecidableEq V] (p : DriverParams)
    (scenarioNames : List String) (st : DriverState V) :
    (configureSubprocessesNonTradePass p scenarioNames st).1.dm =
      (dmAfterEditableOf p scenarioNames st).setValuesFromDict
        (pushedOf p scenarioNames st) := rfl

theorem pass_pushed_eq {V : Type} [DecidableEq V] (p : DriverParams)
    (scenarioNames : List String) (st : DriverState V) :
    (configureSubprocessesNonTradePass p scenarioNames st).2 =
      pushedOf p scenarioNames st := rfl

theorem pass_oldRefDict_eq {V : Type} [DecidableEq V] (p : DriverParams)
    (scenarioNames : List String) (st : DriverState V) :
    (configureSubprocessesNonTradePass p scenarioNames st).1.oldRefDict =
      (if (refChangesOf p st).isEmpty then st.oldRefDict else refDictOf p st) := rfl

theorem dmAfterEditable_check_eq {V : Type} (p : DriverParams)
    (scenarioNames : List String) (st : DriverState V) (q : String) :
    (dmAfterEditableOf p scenarioNames st).checkDataInDm q = st.dm.checkDataInDm q :=
  modifyEditable_isSome _ _ _ _ _ q

theorem dictToPropagate_linked {V : Type} [DecidableEq V] (p : DriverParams)
    (scenarioNames : List String) (st : DriverState V)
    (hmode : p.referenceMode = LINKED_MODE) :
    dictToPropagateOf p scenarioNames st = scenariosNonTradeVarsDictOf p scenarioNames st := by
  unfold dictToPropagateOf scenariosNonTradeVarsDictOf
  rw [if_pos hmode]
  exact transform_check_congr _ _ _ _ _ (fun q => dmAfterEditable_check_eq p scenarioNames st q)

theorem dictToPropagate_copy {V : Type} [DecidableEq V] (p : DriverParams)
    (scenarioNames : List String) (st : DriverState V)
    (hmode : p.referenceMode = COPY_MODE) :
    dictToPropagateOf p scenarioNames st =
      (if (refChangesOf p st).isEmpty then []
       else transformDictFromReferenceToOtherScenarios st.dm p.sosName scenarioNames
         (refChangesOf p st)) := by
  have hne : ¬ p.referenceMode = LINKED_MODE := by
    rw [hmode]
    decide
  unfold dictToPropagateOf
  rw [if_neg hne]
  by_cases hch : (refChangesOf p st).isEmpty
  · rw [if_pos hch, if_neg]
    simp [hmode, hch]
  · rw [if_neg hch, if_pos]
    · exact transform_check_congr _ _ _ _ _
        (fun q => dmAfterEditable_check_eq p scenarioNames st q)
    · simp [hmode, hch]

theorem dmAfterEditable_linked {V : Type} (p : DriverParams) (scenarioNames : List String)
    (st : DriverState V) (hmode : p.referenceMode = LINKED_MODE) :
    dmAfterEditableOf p scenarioNames st =
      setEditableAll st.dm (keysOf (scenariosNonTradeVarsDictOf p scenarioNames st)) false := by
  unfold dmAfterEditableOf modifyEditableAttributeAccordingToReferenceMode
  rw [if_pos hmode]

theorem pushed_linked {V : Type} [DecidableEq V] (p : DriverParams)
    (scenarioNames : List String) (st : DriverState V)
    (hmode : p.referenceMode = LINKED_MODE)
    (hwrite : ¬ refChangesOf p st = [] ∨ thereAreNewOf scenarioNames st = true)
    (hne : ¬ scenariosNonTradeVarsDictOf p scenarioNames st = []) :
    pushedOf p scenarioNames st = scenariosNonTradeVarsDictOf p scenarioNames st := by
  have hdict := dictToPropagate_linked p scenarioNames st hmode
  have hne2 : (dictToPropagateOf p scenarioNames st).isEmpty = false := by
    rw [hdict]
    exact List.isEmpty_eq_false.mpr hne
  unfold pushedOf
  by_cases hnew : thereAreNewOf scenarioNames st = true
  · rw [if_pos hnew, hne2]
    simp [hdict]
  · have hch : ¬ refChangesOf p st = [] := by
      rcases hwrite with h | h
      · exact h
      · exact absurd h hnew
    rw [if_neg hnew, if_pos]
    · exact hdict
    · rw [hne2, List.isEmpty_eq_false.mpr hch]
      rfl

theorem transform_nil {V : Type} (dm : Dm V) (sosName : String)
    (scenarioNames : List String) :
    transformDictFromReferenceToOtherScenarios dm sosName scenarioNames [] = [] := rfl

theorem pushed_copy {V : Type} [DecidableEq V] (p : DriverParams)
    (scenarioNames : List String) (st : DriverState V)
    (hmode : p.referenceMode = COPY_MODE) :
    pushedOf p scenarioNames st =
      transformDictFromReferenceToOtherScenarios st.dm p.sosName scenarioNames
        (refChangesOf p st) := by
  have hdict := dictToPropagate_copy p scenarioNames st hmode
  unfold pushedOf
  by_cases hch : (refChangesOf p st).isEmpty
  · have hchnil : refChangesOf p st = [] := List.isEmpty_iff.mp hch
    rw [hchnil, transform_nil]
    rw [hchnil] at hdict
    simp at hdict
    rw [hdict]
    simp
  · rw [if_neg hch] at hdict
    rw [hdict]
    have h1 : (refChangesOf p st).isEmpty = false := by
      cases h : (refChangesOf p st).isEmpty
      · rfl
      · exact absurd h hch
    by_cases hT : (transformDictFromReferenceToOtherScenarios st.dm p.sosName scenarioNames
        (refChangesOf p st)).isEmpty = true
    · rw [List.isEmpty_iff.mp hT]
      simp
    · have h2 : (transformDictFromReferenceToOtherScenarios st.dm p.sosName scenarioNames
          (refChangesOf p st)).isEmpty = false := by
        cases h : (transformDictFromReferenceToOtherScenarios st.dm p.sosName scenarioNames
            (refChangesOf p st)).isEmpty
        · rfl
        · exact absurd h hT
      simp [h1, h2]

theorem dmAfterEditable_getValue {V : Type} (p : DriverParams)
    (scenarioNames : List String) (st : DriverState V) (q : String) :
    (dmAfterEditableOf p scenarioNames st).getValue q = st.dm.getValue q :=
  modifyEditable_getValue _ _ _ _ _ q

/-- C1, counterexample: in linked mode with an up-to-date reference
snapshot (no reference change) and no new scenarios, a configuration
pass of a driver whose sibling value has diverged from the reference
issues no propagation write and leaves the sibling different from the
reference, contradicting the claim that the linked-mode value equality
holds after every configuration pass. -/
theorem linked_mode_stale_pass_keeps_diverged_sibling :
    (configureSubprocessesNonTradePass egParamsLinked ["sc1"] egStStale).2 = [] ∧
    (configureSubprocessesNonTradePass egParamsLinked ["sc1"]
      egStStale).1.dm.getValue "driver.sc1.x" = some 7 ∧
    (configureSubprocessesNonTradePass egParamsLinked ["sc1"]
      egStStale).1.dm.getValue "driver.ReferenceScenario.x" = some 5 := by
  refine ⟨by decide, by decide, by decide⟩

/-- C1 (amended): in linked mode, after a configuration pass every
non-trade sibling variable is forced non-editable, and whenever some
reference value changed on that pass or the driver has registered new
scenarios, the full reference dict is propagated, making every sibling
value equal to the reference scenario current value.  (On a pass with no
reference change and no new-scenario flag the value write is skipped,
which is the divergence recorded by the counterexample.) -/
theorem linked_mode_propagation_invariant {V : Type} [DecidableEq V] (p : DriverParams)
    (scenarioNames : List String) (st : DriverState V)
    (hmode : p.referenceMode = LINKED_MODE)
    (hnd : (keysOf (scenariosNonTradeVarsDictOf p scenarioNames st)).Nodup) :
    (∀ kv ∈ scenariosNonTradeVarsDictOf p scenarioNames st,
      (configureSubprocessesNonTradePass p scenarioNames st).1.dm.getEditable kv.1 =
        some false) ∧
    ((¬ refChangesOf p st = [] ∨ st.thereAreNewScenarios = true) →
      ∀ kv ∈ scenariosNonTradeVarsDictOf p scenarioNames st,
        (configureSubprocessesNonTradePass p scenarioNames st).1.dm.getValue kv.1 =
          some kv.2) := by
  constructor
  · intro kv hkv
    have hcheck : st.dm.checkDataInDm kv.1 = true := transform_mem_check hkv
    have hkey : kv.1 ∈ keysOf (scenariosNonTradeVarsDictOf p scenarioNames st) :=
      mem_keysOf.mpr ⟨kv, hkv, rfl⟩
    rw [pass_dm_eq, setValuesFromDict_getEditable, dmAfterEditable_linked p _ st hmode,
      setEditableAll_getEditable_mem _ _ _ _ hkey]
    unfold Dm.checkDataInDm at hcheck
    unfold Dm.getEditable
    cases h : st.dm kv.1 with
    | none => rw [h] at hcheck; cases hcheck
    | some e => simp
  · intro hwrite kv hkv
    have hne : ¬ scenariosNonTradeVarsDictOf p scenarioNames st = [] :=
      List.ne_nil_of_mem hkv
    have hwrite2 : ¬ refChangesOf p st = [] ∨ thereAreNewOf scenarioNames st = true := by
      rcases hwrite with h | h
      · exact Or.inl h
      · exact Or.inr (by simp [thereAreNewOf, h])
    have hpush := pushed_linked p scenarioNames st hmode hwrite2 hne
    have hcheck : st.dm.checkDataInDm kv.1 = true := transform_mem_check hkv
    have hsome2 : ((dmAfterEditableOf p scenarioNames st) kv.1).isSome = true := by
      have h2 := dmAfterEditable_check_eq p scenarioNames st kv.1
      unfold Dm.checkDataInDm at h2 hcheck
      rw [h2]
      exact hcheck
    rw [pass_dm_eq, hpush]
    unfold Dm.getValue
    rw [setValuesFromDict_apply_mem _ _ kv.1 kv.2 hnd (by
      cases kv
      exact hkv)]
    exact getValue_of_apply_mapValue _ _ _ hsome2

/-- C1 witness: instantiation of the linked-mode propagation theorem on a
concrete driver whose reference `x` changed from 5 to 9: the sibling
becomes 9 and read-only. -/
theorem linked_mode_propagation_invariant_witness :
    egParamsLinked.referenceMode = LINKED_MODE ∧
    (keysOf (scenariosNonTradeVarsDictOf egParamsLinked ["sc1"] egStChanged)).Nodup ∧
    ¬ refChangesOf egParamsLinked egStChanged = [] ∧
    ("driver.sc1.x", (9 : Int)) ∈ scenariosNonTradeVarsDictOf egParamsLinked ["sc1"] egStChanged ∧
    (configureSubprocessesNonTradePass egParamsLinked ["sc1"]
      egStChanged).1.dm.getValue "driver.sc1.x" = some 9 ∧
    (configureSubprocessesNonTradePass egParamsLinked ["sc1"]
      egStChanged).1.dm.getEditable "driver.sc1.x" = some false :=
  ⟨by decide, by decide, by decide, by decide,
    (linked_mode_propagation_invariant egParamsLinked ["sc1"] egStChanged (by decide)
      (by decide)).2 (Or.inl (by decide)) ("driver.sc1.x", (9 : Int)) (by decide),
    (linked_mode_propagation_invariant egParamsLinked ["sc1"] egStChanged (by decide)
      (by decide)).1 ("driver.sc1.x", (9 : Int)) (by decide)⟩

/-- C3: copy-mode one-shot propagation.  In copy mode a configuration
pass pushes exactly the sibling remap of the changed reference entries:
every remapped changed entry receives the new reference value, every
other data-manager value (in particular a sibling value edited
independently since the last reference change of that variable) is left
untouched, and when there are changes the snapshot is updated to the
current reference dict so the same change is not pushed again. -/
theorem copy_mode_one_shot_propagation {V : Type} [DecidableEq V] (p : DriverParams)
    (scenarioNames : List String) (st : DriverState V)
    (hmode : p.referenceMode = COPY_MODE)
    (hnd : (keysOf (transformDictFromReferenceToOtherScenarios st.dm p.sosName scenarioNames
      (refChangesOf p st))).Nodup) :
    (∀ kv ∈ transformDictFromReferenceToOtherScenarios st.dm p.sosName scenarioNames
        (refChangesOf p st),
      (configureSubprocessesNonTradePass p scenarioNames st).1.dm.getValue kv.1 =
        some kv.2) ∧
    (∀ q, ¬ q ∈ keysOf (transformDictFromReferenceToOtherScenarios st.dm p.sosName
        scenarioNames (refChangesOf p st)) →
      (configureSubprocessesNonTradePass p scenarioNames st).1.dm.getValue q =
        st.dm.getValue q) ∧
    (¬ refChangesOf p st = [] →
      (configureSubprocessesNonTradePass p scenarioNames st).1.oldRefDict =
        refDictOf p st) := by
  have hpush := pushed_copy p scenarioNames st hmode
  refine ⟨?_, ?_, ?_⟩
  · intro kv hkv
    have hcheck : st.dm.checkDataInDm kv.1 = true := transform_mem_check hkv
    have hsome2 : ((dmAfterEditableOf p scenarioNames st) kv.1).isSome = true := by
      have h2 := dmAfterEditable_check_eq p scenarioNames st kv.1
      unfold Dm.checkDataInDm at h2 hcheck
      rw [h2]
      exact hcheck
    rw [pass_dm_eq, hpush]
    unfold Dm.getValue
    rw [setValuesFromDict_apply_mem _ _ kv.1 kv.2 hnd (by
      cases kv
      exact hkv)]
    exact getValue_of_apply_mapValue _ _ _ hsome2
  · intro q hq
    rw [pass_dm_eq, hpush]
    unfold Dm.getValue
    rw [setValuesFromDict_apply_not_mem _ _ _ hq]
    exact dmAfterEditable_getValue p scenarioNames st q
  · intro hch
    rw [pass_oldRefDict_eq, if_neg]
    rw [List.isEmpty_eq_false.mpr hch]
    exact Bool.false_ne_true

/-- C3 witness: first pass pushes the changed reference `x = 9` to the
sibling; after the sibling is edited to 3 and the unrelated reference
`y` changes to 21, the second pass pushes only `y` and leaves the
sibling value 3 in place. -/
theorem copy_mode_one_shot_propagation_witness :
    egParamsCopyXY.referenceMode = COPY_MODE ∧
    ("driver.sc1.x", (9 : Int)) ∈ transformDictFromReferenceToOtherScenarios egStXY.dm
      egParamsCopyXY.sosName ["sc1"] (refChangesOf egParamsCopyXY egStXY) ∧
    (configureSubprocessesNonTradePass egParamsCopyXY ["sc1"]
      egStXY).1.dm.getValue "driver.sc1.x" = some 9 ∧
    ¬ "driver.sc1.x" ∈ keysOf (transformDictFromReferenceToOtherScenarios egStXYLater.dm
      egParamsCopyXY.sosName ["sc1"] (refChangesOf egParamsCopyXY egStXYLater)) ∧
    (configureSubprocessesNonTradePass egParamsCopyXY ["sc1"]
      egStXYLater).1.dm.getValue "driver.sc1.x" = egStXYLater.dm.getValue "driver.sc1.x" ∧
    (configureSubprocessesNonTradePass egParamsCopyXY ["sc1"]
      egStXYLater).1.dm.getValue "driver.sc1.y" = some 21 :=
  ⟨by decide, by decide,
    (copy_mode_one_shot_propagation egParamsCopyXY ["sc1"] egStXY (by decide)
      (by decide)).1 ("driver.sc1.x", (9 : Int)) (by decide),
    by decide,
    (copy_mode_one_shot_propagation egParamsCopyXY ["sc1"] egStXYLater (by decide)
      (by decide)).2.1 "driver.sc1.x" (by decide),
    (copy_mode_one_shot_propagation egParamsCopyXY ["sc1"] egStXYLater (by decide)
      (by decide)).1 ("driver.sc1.y", (21 : Int)) (by decide)⟩

/-- C4, counterexample: in copy mode, on a pass where a new scenario
`sc2` was added to the table but no reference value changed, nothing is
pushed and the new scenario keeps its built default 0 instead of the
reference value 5, contradicting the claim that a new scenario receives
the current reference values regardless of the reference mode. -/
theorem new_scenario_copy_mode_receives_nothing :
    scenarioSetChangedOf ["sc1", "sc2"] egStNewScenario = true ∧
    refChangesOf egParamsCopy egStNewScenario = [] ∧
    (configureSubprocessesNonTradePass egParamsCopy ["sc1", "sc2"] egStNewScenario).2 = [] ∧
    (configureSubprocessesNonTradePass egParamsCopy ["sc1", "sc2"]
      egStNewScenario).1.dm.getValue "driver.sc2.x" = some 0 ∧
    (configureSubprocessesNonTradePass egParamsCopy ["sc1", "sc2"]
      egStNewScenario).1.dm.getValue "driver.ReferenceScenario.x" = some 5 := by
  refine ⟨by decide, by decide, by decide, by decide, by decide⟩

/-- C4 (amended): a newly added scenario receives, after the next
configuration pass, the full current reference values in linked mode
(the scenario-set change raises the new-scenarios flag, which forces the
full-reference push); in copy mode only the reference entries that
changed on that very pass are pushed, and with no reference change the
new scenario receives nothing (counterexample). -/
theorem new_scenario_full_copy_linked {V : Type} [DecidableEq V] (p : DriverParams)
    (scenarioNames : List String) (st : DriverState V)
    (hmode : p.referenceMode = LINKED_MODE)
    (hnd : (keysOf (scenariosNonTradeVarsDictOf p scenarioNames st)).Nodup)
    (hchanged : scenarioSetChangedOf scenarioNames st = true) :
    ∀ kv ∈ scenariosNonTradeVarsDictOf p scenarioNames st,
      (configureSubprocessesNonTradePass p scenarioNames st).1.dm.getValue kv.1 =
        some kv.2 := by
  intro kv hkv
  have hne : ¬ scenariosNonTradeVarsDictOf p scenarioNames st = [] :=
    List.ne_nil_of_mem hkv
  have hwrite2 : ¬ refChangesOf p st = [] ∨ thereAreNewOf scenarioNames st = true :=
    Or.inr (by simp [thereAreNewOf, hchanged])
  have hpush := pushed_linked p scenarioNames st hmode hwrite2 hne
  have hcheck : st.dm.checkDataInDm kv.1 = true := transform_mem_check hkv
  have hsome2 : ((dmAfterEditableOf p scenarioNames st) kv.1).isSome = true := by
    have h2 := dmAfterEditable_check_eq p scenarioNames st kv.1
    unfold Dm.checkDataInDm at h2 hcheck
    rw [h2]
    exact hcheck
  rw [pass_dm_eq, hpush]
  unfold Dm.getValue
  rw [setValuesFromDict_apply_mem _ _ kv.1 kv.2 hnd (by
    cases kv
    exact hkv)]
  exact getValue_of_apply_mapValue _ _ _ hsome2

/-- C4 witness: in linked mode, adding `sc2` with unchanged reference
still yields the reference value 5 in the new scenario after the pass. -/
theorem new_scenario_full_copy_linked_witness :
    egParamsLinked.referenceMode = LINKED_MODE ∧
    scenarioSetChangedOf ["sc1", "sc2"] egStNewScenario = true ∧
    ("driver.sc2.x", (5 : Int)) ∈
      scenariosNonTradeVarsDictOf egParamsLinked ["sc1", "sc2"] egStNewScenario ∧
    (configureSubprocessesNonTradePass egParamsLinked ["sc1", "sc2"]
      egStNewScenario).1.dm.getValue "driver.sc2.x" = some 5 :=
  ⟨by decide, by decide, by decide,
    new_scenario_full_copy_linked egParamsLinked ["sc1", "sc2"] egStNewScenario
      (by decide) (by decide) (by decide) ("driver.sc2.x", (5 : Int)) (by decide)⟩

/-- C5, counterexample: state in which a configuration pass has completed
and no input changed since (no reference change, same scenario set), but
the sticky `there_are_new_scenarios` flag is set from an earlier scenario
addition (it is never reset): the next linked-mode pass re-issues the
full-reference propagation write, contradicting the claim that a second
`configure()` with no input change issues no propagation write. -/
theorem second_pass_reissues_write_with_sticky_flag :
    refChangesOf egParamsLinked egStSticky = [] ∧
    scenarioSetChangedOf ["sc1", "sc2"] egStSticky = false ∧
    ¬ (configureSubprocessesNonTradePass egParamsLinked ["sc1", "sc2"] egStSticky).2 = [] := by
  refine ⟨by decide, by decide, by decide⟩

/-- C5 (amended): a configuration pass with no reference change, an
unchanged scenario set and an unset new-scenarios flag issues no
propagation write and changes no data-manager value; once the sticky
flag has been set by a past scenario addition, a linked-mode pass
re-issues the full-reference write even without changes
(counterexample). -/
theorem configure_pass_idempotent_without_sticky_flag {V : Type} [DecidableEq V]
    (p : DriverParams) (scenarioNames : List String) (st : DriverState V)
    (hch : refChangesOf p st = [])
    (hflag : st.thereAreNewScenarios = false)
    (hset : scenarioSetChangedOf scenarioNames st = false) :
    (configureSubprocessesNonTradePass p scenarioNames st).2 = [] ∧
    (∀ q, (configureSubprocessesNonTradePass p scenarioNames st).1.dm.getValue q =
      st.dm.getValue q) := by
  have hnew : thereAreNewOf scenarioNames st = false := by
    simp [thereAreNewOf, hflag, hset]
  have hpush : pushedOf p scenarioNames st = [] := by
    unfold pushedOf
    rw [hnew]
    simp [hch]
  constructor
  · rw [pass_pushed_eq]
    exact hpush
  · intro q
    rw [pass_dm_eq, hpush, setValuesFromDict_nil]
    exact dmAfterEditable_getValue p scenarioNames st q

/-- C5 witness: on the stale linked-mode state with no change and no
sticky flag, the pass pushes nothing and both values are unchanged. -/
theorem configure_pass_idempotent_without_sticky_flag_witness :
    refChangesOf egParamsLinked egStStale = [] ∧
    egStStale.thereAreNewScenarios = false ∧
    scenarioSetChangedOf ["sc1"] egStStale = false ∧
    (configureSubprocessesNonTradePass egParamsLinked ["sc1"] egStStale).2 = [] ∧
    (configureSubprocessesNonTradePass egParamsLinked ["sc1"]
      egStStale).1.dm.getValue "driver.sc1.x" = egStStale.dm.getValue "driver.sc1.x" :=
  ⟨by decide, by decide, by decide,
    (configure_pass_idempotent_without_sticky_flag egParamsLinked ["sc1"] egStStale
      (by decide) (by decide) (by decide)).1,
    (configure_pass_idempotent_without_sticky_flag egParamsLinked ["sc1"] egStStale
      (by decide) (by decide) (by decide)).2 "driver.sc1.x"⟩

/-- C2: when two selected rows of the scenario table share a name, the
scatter list is marked invalid, the repeated name is part of the repeated
elements from which the human-readable message is built, the message is
attached to the `scenario_df` integrity metadata instead of being raised,
and `build_tool` performs no build while the table is invalid. -/
theorem duplicate_scenario_names_fail_validation (rows : List ScenarioRow) (n : String)
    (hdup : 1 < (selectedScenarioNames rows).count n) :
    (checkScatterListValidity true rows).1 = false ∧
    n ∈ repeatedElements (selectedScenarioNames rows) ∧
    (checkScatterListValidity true rows).2 =
      scatterIntegrityMsg (repeatedElements (selectedScenarioNames rows)) ∧
    checkDataIntegrityAttachedMsg true (checkScatterListValidity true rows).1
      (checkScatterListValidity true rows).2 =
      some (checkScatterListValidity true rows).2 ∧
    (∀ toolExists : Bool,
      buildToolPerformsBuild toolExists (checkScatterListValidity true rows).1 = false) := by
  have hlen : (selectedScenarioNames rows).length ≠
      (selectedScenarioNames rows).dedup.length := by
    intro hEq
    have hsub := List.dedup_sublist (selectedScenarioNames rows)
    have hdedup : (selectedScenarioNames rows).dedup = selectedScenarioNames rows :=
      hsub.eq_of_length hEq.symm
    have hnd : (selectedScenarioNames rows).Nodup := List.dedup_eq_self.mp hdedup
    have hle := List.nodup_iff_count_le_one.mp hnd n
    omega
  have hvalid : checkScatterListValidity true rows =
      (false, scatterIntegrityMsg (repeatedElements (selectedScenarioNames rows))) := by
    unfold checkScatterListValidity
    rw [if_pos rfl, if_pos hlen]
  have hmem : n ∈ repeatedElements (selectedScenarioNames rows) := by
    have hmemNames : n ∈ selectedScenarioNames rows :=
      List.count_pos_iff.mp (by omega)
    unfold repeatedElements
    rw [List.mem_filter]
    exact ⟨List.mem_dedup.mpr hmemNames, by simpa using hdup⟩
  refine ⟨by rw [hvalid], hmem, by rw [hvalid], by rw [hvalid]; rfl, ?_⟩
  intro toolExists
  rw [hvalid]
  unfold buildToolPerformsBuild
  exact Bool.and_false toolExists

/-- C2 witness: a table with two selected rows named `a` is rejected and
builds nothing. -/
theorem duplicate_scenario_names_fail_validation_witness :
    1 < (selectedScenarioNames
      [{ selected := true, name := "a" }, { selected := true, name := "a" }]).count "a" ∧
    (checkScatterListValidity true
      [{ selected := true, name := "a" }, { selected := true, name := "a" }]).1 = false ∧
    "a" ∈ repeatedElements (selectedScenarioNames
      [{ selected := true, name := "a" }, { selected := true, name := "a" }]) ∧
    buildToolPerformsBuild true (checkScatterListValidity true
      [{ selected := true, name := "a" }, { selected := true, name := "a" }]).1 = false :=
  ⟨by decide,
    (duplicate_scenario_names_fail_validation
      [{ selected := true, name := "a" }, { selected := true, name := "a" }] "a"
      (by decide)).1,
    (duplicate_scenario_names_fail_validation
      [{ selected := true, name := "a" }, { selected := true, name := "a" }] "a"
      (by decide)).2.1,
    (duplicate_scenario_names_fail_validation
      [{ selected := true, name := "a" }, { selected := true, name := "a" }] "a"
      (by decide)).2.2.2.2 true⟩

/-- C6: in multi-instance mode with an instantiated reference and the
scenario table present, `is_configured` returns `True` exactly when the
own structuring inputs have stabilized, every child reports configured,
no reference-variable changes remain un-propagated and no sub-process
use-case import is pending; in particular the driver never reports
configured while propagation is incomplete. -/
theorem is_configured_multi_instance_iff {V : Type} [DecidableEq V] (s : ConfigView V)
    (hbm : s.builderModePresent = true) (hmode : s.builderMode = MULTI_INSTANCE)
    (hirp : s.instanceReferencePresent = true) (hir : s.instanceReference = true)
    (hdf : s.scenarioDfPresent = true) :
    (isConfigured s = true ↔
      (s.superConfigured = true ∧ s.subprocessConfigured = true ∧
        s.refChangesDict = [] ∧ s.subProcImportUsecaseStatus = NO_SP_UC_IMPORT)) ∧
    (¬ s.refChangesDict = [] → isConfigured s = false) := by
  have hred : isConfigured s = (s.superConfigured && s.subprocessConfigured &&
      s.refChangesDict.isEmpty &&
      decide (s.subProcImportUsecaseStatus = NO_SP_UC_IMPORT)) := by
    unfold isConfigured
    rw [hbm, hmode, hirp, hir, hdf]
    simp
  constructor
  · rw [hred]
    simp [List.isEmpty_iff, and_assoc]
  · intro hch
    rw [hred, List.isEmpty_eq_false.mpr hch]
    simp

/-- C6 witness: with one pending reference change the driver is not
configured; with the change propagated and no pending import it is. -/
theorem is_configured_multi_instance_iff_witness :
    egConfigPending.builderModePresent = true ∧
    egConfigPending.builderMode = MULTI_INSTANCE ∧
    ¬ egConfigPending.refChangesDict = [] ∧
    isConfigured egConfigPending = false ∧
    isConfigured egConfigReady = true :=
  ⟨by decide, by decide, by decide,
    (is_configured_multi_instance_iff egConfigPending (by decide) (by decide) (by decide)
      (by decide) (by decide)).2 (by decide),
    (is_configured_multi_instance_iff egConfigReady (by decide) (by decide) (by decide)
      (by decide) (by decide)).1.mpr ⟨by decide, by decide, by decide, by decide⟩⟩

theorem dictInsert_keysOf {V : Type} (l : List (String × V)) (k : String) (v : V) :
    keysOf (dictInsert l k v) =
      (if l.any (fun p => p.1 = k) then keysOf l else keysOf l ++ [k]) := by
  unfold dictInsert
  split
  · unfold keysOf
    rw [List.map_map]
    refine List.map_congr_left (fun p hp => ?_)
    by_cases hpk : p.1 = k
    · simp [hpk]
    · simp [hpk]
  · unfold keysOf
    simp

theorem dictInsert_keys_nodup {V : Type} {l : List (String × V)}
    (h : (keysOf l).Nodup) (k : String) (v : V) :
    (keysOf (dictInsert l k v)).Nodup := by
  rw [dictInsert_keysOf]
  split
  · exact h
  case isFalse hf =>
    have hnotin : ¬ k ∈ keysOf l := by
      intro hk
      rcases mem_keysOf.mp hk with ⟨kv, hkv, he⟩
      exact hf (List.any_eq_true.mpr ⟨kv, hkv, by simp [he]⟩)
    simp [List.nodup_append, h, hnotin]

theorem foldl_dictInsert_keys_nodup {V α : Type} (f : α → String) (g : α → V)
    (l : List α) :
    ∀ acc : List (String × V), (keysOf acc).Nodup →
      (keysOf (l.foldl (fun a x => dictInsert a (f x) (g x)) acc)).Nodup := by
  induction l with
  | nil => intro acc h; exact h
  | cons x rest ih => intro acc h; exact ih _ (dictInsert_keys_nodup h _ _)

theorem putAnonymized_keys_nodup {V : Type} (anonymized : List (String × V))
    (placeholder target : String) :
    (keysOf (putAnonymizedInputDictInSubProcessContext anonymized placeholder
      target)).Nodup := by
  unfold putAnonymizedInputDictInSubProcessContext
  exact foldl_dictInsert_keys_nodup (fun kv => pyReplace kv.1 placeholder target)
    (fun kv => kv.2) anonymized [] List.nodup_nil

theorem dictInsert_mem_keysOf {V : Type} {l : List (String × V)} {k : String} {v : V}
    {q : String} (h : q ∈ keysOf (dictInsert l k v)) : q ∈ keysOf l ∨ q = k := by
  rw [dictInsert_keysOf] at h
  by_cases hc : l.any (fun p => p.1 = k) = true
  · rw [if_pos hc] at h
    exact Or.inl h
  · rw [if_neg hc] at h
    rcases List.mem_append.mp h with h1 | h2
    · exact Or.inl h1
    · exact Or.inr (by simpa using h2)

theorem foldl_dictInsert_mem_keysOf {V α : Type} (f : α → String) (g : α → V)
    (l : List α) :
    ∀ (acc : List (String × V)) (q : String),
      q ∈ keysOf (l.foldl (fun a x => dictInsert a (f x) (g x)) acc) →
      q ∈ keysOf acc ∨ ∃ x ∈ l, q = f x := by
  induction l with
  | nil => intro acc q h; exact Or.inl h
  | cons x rest ih =>
    intro acc q h
    rcases ih _ q h with h1 | h2
    · rcases dictInsert_mem_keysOf h1 with h3 | h4
      · exact Or.inl h3
      · exact Or.inr ⟨x, List.mem_cons_self _ _, h4⟩
    · rcases h2 with ⟨y, hy, he⟩
      exact Or.inr ⟨y, List.mem_cons_of_mem _ hy, he⟩

theorem assoc_key_inj {V : Type} {l : List (String × V)} (hnd : (keysOf l).Nodup)
    {kv kw : String × V} (h1 : kv ∈ l) (h2 : kw ∈ l) (heq : kv.1 = kw.1) : kv = kw := by
  induction l with
  | nil => cases h1
  | cons a rest ih =>
    rw [keysOf_cons] at hnd
    have hnd2 := List.nodup_cons.mp hnd
    rcases List.mem_cons.mp h1 with e1 | m1
    · rcases List.mem_cons.mp h2 with e2 | m2
      · rw [e1, e2]
      · exact absurd (mem_keysOf.mpr ⟨kw, m2, by rw [← heq, e1]⟩) hnd2.1
    · rcases List.mem_cons.mp h2 with e2 | m2
      · exact absurd (mem_keysOf.mpr ⟨kv, m1, by rw [heq, e2]⟩) hnd2.1
      · exact ih hnd2.2 m1 m2

theorem keysOf_filter_sublist {V : Type} (p : String × V → Bool) (l : List (String × V)) :
    List.Sublist (keysOf (l.filter p)) (keysOf l) :=
  (List.filter_sublist l).map Prod.fst

/-- C7: the use-case import substitutes the anonymization placeholder
with the target path in every translated key, pushes exactly the subset
of translated keys known to the data manager (unknown keys are silently
dropped, their entries untouched), and resets the pending-import status
to `No_SP_UC_Import` if and only if every translated key was applied;
on partial application the status stays `SP_UC_Import`. -/
theorem usecase_import_contract {V : Type} [DecidableEq V] (dm : Dm V)
    (anonymized : List (String × V)) (placeholder target : String) :
    (∀ k ∈ keysOf (putAnonymizedInputDictInSubProcessContext anonymized placeholder target),
      ∃ kw ∈ anonymized, k = pyReplace kw.1 placeholder target) ∧
    ((updateReferenceFromAnonymisedDict dm SP_UC_IMPORT anonymized placeholder
        target).2.2 =
      (putAnonymizedInputDictInSubProcessContext anonymized placeholder target).filter
        (fun kv => dm.checkDataInDm kv.1)) ∧
    (∀ kv ∈ putAnonymizedInputDictInSubProcessContext anonymized placeholder target,
      dm.checkDataInDm kv.1 = true →
      (updateReferenceFromAnonymisedDict dm SP_UC_IMPORT anonymized placeholder
        target).1.getValue kv.1 = some kv.2) ∧
    (∀ kv ∈ putAnonymizedInputDictInSubProcessContext anonymized placeholder target,
      dm.checkDataInDm kv.1 = false →
      (updateReferenceFromAnonymisedDict dm SP_UC_IMPORT anonymized placeholder
        target).1 kv.1 = dm kv.1) ∧
    ((updateReferenceFromAnonymisedDict dm SP_UC_IMPORT anonymized placeholder
        target).2.1 = NO_SP_UC_IMPORT ↔
      ∀ kv ∈ putAnonymizedInputDictInSubProcessContext anonymized placeholder target,
        dm.checkDataInDm kv.1 = true) := by
  have hnd : (keysOf (putAnonymizedInputDictInSubProcessContext anonymized placeholder
      target)).Nodup := putAnonymized_keys_nodup anonymized placeholder target
  have hndf : (keysOf ((putAnonymizedInputDictInSubProcessContext anonymized placeholder
      target).filter (fun kv => dm.checkDataInDm kv.1))).Nodup :=
    (keysOf_filter_sublist _ _).nodup hnd
  refine ⟨?_, rfl, ?_, ?_, ?_⟩
  · intro k hk
    unfold putAnonymizedInputDictInSubProcessContext at hk
    rcases foldl_dictInsert_mem_keysOf (fun kv => pyReplace kv.1 placeholder target)
      (fun kv => kv.2) anonymized [] k hk with h1 | h2
    · cases h1
    · exact h2
  · intro kv hkv hcheck
    have hmf : kv ∈ (putAnonymizedInputDictInSubProcessContext anonymized placeholder
        target).filter (fun kw => dm.checkDataInDm kw.1) :=
      List.mem_filter.mpr ⟨hkv, hcheck⟩
    show ((dm.setValuesFromDict _) kv.1).map _ = _
    rw [setValuesFromDict_apply_mem _ _ kv.1 kv.2 hndf (by
      cases kv
      exact hmf)]
    unfold Dm.checkDataInDm at hcheck
    exact getValue_of_apply_mapValue _ _ _ hcheck
  · intro kv hkv hcheck
    have hnm : ¬ kv.1 ∈ keysOf ((putAnonymizedInputDictInSubProcessContext anonymized
        placeholder target).filter (fun kw => dm.checkDataInDm kw.1)) := by
      intro hmem
      rcases mem_keysOf.mp hmem with ⟨kw, hkw, he⟩
      have hkw2 := List.mem_filter.mp hkw
      have : kw = kv := assoc_key_inj hnd hkw2.1 hkv he
      rw [this] at hkw2
      rw [hkw2.2] at hcheck
      cases hcheck
    exact setValuesFromDict_apply_not_mem _ _ _ hnm
  · constructor
    · intro hstat kv hkv
      by_cases hlen : ((putAnonymizedInputDictInSubProcessContext anonymized placeholder
          target).filter (fun kw => dm.checkDataInDm kw.1)).length =
          (putAnonymizedInputDictInSubProcessContext anonymized placeholder target).length
      · exact List.filter_length_eq_length.mp hlen kv hkv
      · exfalso
        have : (updateReferenceFromAnonymisedDict dm SP_UC_IMPORT anonymized placeholder
            target).2.1 = SP_UC_IMPORT := by
          show (if _ then _ else _) = _
          rw [if_neg hlen]
        rw [this] at hstat
        exact absurd hstat (by decide)
    · intro hall
      have hlen : ((putAnonymizedInputDictInSubProcessContext anonymized placeholder
          target).filter (fun kw => dm.checkDataInDm kw.1)).length =
          (putAnonymizedInputDictInSubProcessContext anonymized placeholder target).length :=
        List.filter_length_eq_length.mpr hall
      show (if _ then _ else _) = _
      rw [if_pos hlen]

/-- C7 witness: of the two translated keys only `Study.Ref.a` is known:
its value is pushed, `Study.Ref.b` is dropped without error, and the
pending status is not reset. -/
theorem usecase_import_contract_witness :
    ("Study.Ref.a", (10 : Int)) ∈
      putAnonymizedInputDictInSubProcessContext egAnonymizedDict "<study_ph>" "Study.Ref" ∧
    egDmImport.checkDataInDm "Study.Ref.a" = true ∧
    (updateReferenceFromAnonymisedDict egDmImport SP_UC_IMPORT egAnonymizedDict
      "<study_ph>" "Study.Ref").1.getValue "Study.Ref.a" = some 10 ∧
    egDmImport.checkDataInDm "Study.Ref.b" = false ∧
    (updateReferenceFromAnonymisedDict egDmImport SP_UC_IMPORT egAnonymizedDict
      "<study_ph>" "Study.Ref").1 "Study.Ref.b" = egDmImport "Study.Ref.b" ∧
    ¬ (updateReferenceFromAnonymisedDict egDmImport SP_UC_IMPORT egAnonymizedDict
      "<study_ph>" "Study.Ref").2.1 = NO_SP_UC_IMPORT :=
  ⟨by decide, by decide,
    (usecase_import_contract egDmImport egAnonymizedDict "<study_ph>" "Study.Ref").2.2.1
      ("Study.Ref.a", (10 : Int)) (by decide) (by decide),
    by decide,
    (usecase_import_contract egDmImport egAnonymizedDict "<study_ph>" "Study.Ref").2.2.2.1
      ("Study.Ref.b", (20 : Int)) (by decide) (by decide),
    fun h =>
      absurd ((usecase_import_contract egDmImport egAnonymizedDict "<study_ph>"
        "Study.Ref").2.2.2.2.mp h ("Study.Ref.b", (20 : Int)) (by decide)) (by decide)⟩

/-- C8: a sub-discipline variable is admitted to the possible eval-inputs
exactly when it is an `'in'` variable of an evaluable type (float, array,
int or string), not a coupling numerical key, not structuring, not a
multiplier particle, and editable; a variable is admitted to the possible
eval-outputs exactly when it is an output that is neither a coupling
numerical key nor `residuals_history`; both sets hold the names
anonymized with respect to the driver node full name. -/
theorem possible_values_admission (couplingKeys : List String) (driverFullName : String)
    (dataIn : List InVarRecord) (dataOut : List OutVarRecord) :
    (∀ r : InVarRecord, inputAdmissible couplingKeys r = true ↔
      (r.ioTypeIn = true ∧ ¬ r.key ∈ couplingKeys ∧ r.structuring = false ∧
        r.editable = true ∧ r.typ ∈ EVAL_INPUT_TYPE ∧
        pyContains r.key MULTIPLIER_PARTICULE = false)) ∧
    (∀ r ∈ dataIn, inputAdmissible couplingKeys r = true →
      anonymizeWrtDriver driverFullName r.fullId ∈
        fillPossibleValuesIn couplingKeys driverFullName dataIn) ∧
    (∀ s ∈ fillPossibleValuesIn couplingKeys driverFullName dataIn,
      ∃ r ∈ dataIn, inputAdmissible couplingKeys r = true ∧
        s = anonymizeWrtDriver driverFullName r.fullId) ∧
    (∀ r : OutVarRecord, outputAdmissible couplingKeys r = true ↔
      (¬ r.key ∈ couplingKeys ∧ ¬ r.key = "residuals_history")) ∧
    (∀ r ∈ dataOut, outputAdmissible couplingKeys r = true →
      anonymizeWrtDriver driverFullName r.fullId ∈
        fillPossibleValuesOut couplingKeys driverFullName dataOut) ∧
    (∀ s ∈ fillPossibleValuesOut couplingKeys driverFullName dataOut,
      ∃ r ∈ dataOut, outputAdmissible couplingKeys r = true ∧
        s = anonymizeWrtDriver driverFullName r.fullId) := by
  refine ⟨?_, ?_, ?_, ?_, ?_, ?_⟩
  · intro r
    unfold inputAdmissible
    simp [Bool.and_eq_true, and_assoc]
  · intro r hr hadm
    exact List.mem_map.mpr ⟨r, List.mem_filter.mpr ⟨hr, hadm⟩, rfl⟩
  · intro s hs
    rcases List.mem_map.mp hs with ⟨r, hrf, he⟩
    have hr2 := List.mem_filter.mp hrf
    exact ⟨r, hr2.1, hr2.2, he.symm⟩
  · intro r
    unfold outputAdmissible
    simp
  · intro r hr hadm
    exact List.mem_map.mpr ⟨r, List.mem_filter.mpr ⟨hr, hadm⟩, rfl⟩
  · intro s hs
    rcases List.mem_map.mp hs with ⟨r, hrf, he⟩
    have hr2 := List.mem_filter.mp hrf
    exact ⟨r, hr2.1, hr2.2, he.symm⟩

/-- C8 witness: a well-formed float input is admitted and reported
anonymized; `residuals_history` is excluded from the outputs. -/
theorem possible_values_admission_witness :
    inputAdmissible ["linearization_mode"]
      { key := "x", fullId := "Study.Eval.subprocess.Disc1.x", typ := "float",
        structuring := false, editable := true, ioTypeIn := true } = true ∧
    "subprocess.Disc1.x" ∈ fillPossibleValuesIn ["linearization_mode"] "Study.Eval"
      [{ key := "x", fullId := "Study.Eval.subprocess.Disc1.x", typ := "float",
         structuring := false, editable := true, ioTypeIn := true }] ∧
    outputAdmissible ["linearization_mode"]
      { key := "residuals_history", fullId := "Study.Eval.subprocess.residuals_history" } =
      false ∧
    fillPossibleValuesOut ["linearization_mode"] "Study.Eval"
      [{ key := "residuals_history",
         fullId := "Study.Eval.subprocess.residuals_history" }] = [] :=
  ⟨by decide,
    (possible_values_admission ["linearization_mode"] "Study.Eval"
      [{ key := "x", fullId := "Study.Eval.subprocess.Disc1.x", typ := "float",
         structuring := false, editable := true, ioTypeIn := true }] []).2.1
      { key := "x", fullId := "Study.Eval.subprocess.Disc1.x", typ := "float",
        structuring := false, editable := true, ioTypeIn := true }
      (by decide) (by decide),
    by decide, by decide⟩

/-- C9: whenever `prepare_build` observes a builder mode different from
the previously built one, the teardown events `clean_children` and
`clean_sub_builders` open the event trace (hence precede any builder
production), the mode-specific builder state of the mode being left is
reset and the stored mode is updated; when the mode is unchanged no
teardown event occurs and the state is untouched. -/
theorem builder_mode_change_teardown (bm : Option String) (st : BuildState) :
    (¬ bm = st.oldBuilderMode →
      ((prepareBuildStep true bm st).2.take 2 =
        [BuildEvent.cleanChildren, BuildEvent.cleanSubBuilders] ∧
      (st.oldBuilderMode = some MONO_INSTANCE →
        (prepareBuildStep true bm st).1.evalProcessBuilderSet = false) ∧
      (st.oldBuilderMode = some MULTI_INSTANCE →
        (prepareBuildStep true bm st).1.builderToolSet = false) ∧
      (prepareBuildStep true bm st).1.oldBuilderMode = bm)) ∧
    (bm = st.oldBuilderMode →
      (¬ BuildEvent.cleanChildren ∈ (prepareBuildStep true bm st).2 ∧
       ¬ BuildEvent.cleanSubBuilders ∈ (prepareBuildStep true bm st).2 ∧
       (prepareBuildStep true bm st).1 = st)) := by
  constructor
  · intro h
    have hst : (prepareBuildStep true bm st).1 =
        { oldBuilderMode := bm,
          evalProcessBuilderSet :=
            if st.oldBuilderMode = some MONO_INSTANCE then false
            else st.evalProcessBuilderSet,
          builderToolSet :=
            if st.oldBuilderMode = some MULTI_INSTANCE then false
            else st.builderToolSet } := by
      cases bm with
      | none => simp [prepareBuildStep, h]
      | some m =>
        by_cases hm : (m = MULTI_INSTANCE || m = MONO_INSTANCE || m = REGULAR_BUILD) = true
        · simp [prepareBuildStep, h, hm]
        · simp [prepareBuildStep, h, hm]
    have hev : (prepareBuildStep true bm st).2.take 2 =
        [BuildEvent.cleanChildren, BuildEvent.cleanSubBuilders] := by
      cases bm with
      | none => simp [prepareBuildStep, h]
      | some m =>
        by_cases hm : (m = MULTI_INSTANCE || m = MONO_INSTANCE || m = REGULAR_BUILD) = true
        · simp [prepareBuildStep, h, hm]
        · simp [prepareBuildStep, h, hm]
    refine ⟨hev, ?_, ?_, ?_⟩
    · intro hmo
      rw [hst]
      simp [hmo]
    · intro hmo
      rw [hst]
      simp [hmo]
    · rw [hst]
  · intro h
    have hred : prepareBuildStep true bm st =
        (st, match bm with
          | some m =>
            if m = MULTI_INSTANCE || m = MONO_INSTANCE || m = REGULAR_BUILD then
              [BuildEvent.buildersForMode m]
            else [BuildEvent.wrongModeError]
          | none => []) := by
      cases bm with
      | none => simp [prepareBuildStep, h]
      | some m =>
        by_cases hm : (m = MULTI_INSTANCE || m = MONO_INSTANCE || m = REGULAR_BUILD) = true
        · simp [prepareBuildStep, h, hm]
        · simp [prepareBuildStep, h, hm]
    rw [hred]
    refine ⟨?_, ?_, rfl⟩ <;>
    · cases bm with
      | none => simp
      | some m =>
        by_cases hm : (m = MULTI_INSTANCE || m = MONO_INSTANCE || m = REGULAR_BUILD) = true
        · simp [hm]
        · simp [hm]

/-- C9 witness: switching from a built mono-instance configuration to
multi-instance tears down and drops the eval process builder, while an
unchanged mode keeps everything. -/
theorem builder_mode_change_teardown_witness :
    ¬ (some MULTI_INSTANCE : Option String) =
      (BuildState.mk (some MONO_INSTANCE) true false).oldBuilderMode ∧
    (prepareBuildStep true (some MULTI_INSTANCE)
      (BuildState.mk (some MONO_INSTANCE) true false)).2.take 2 =
      [BuildEvent.cleanChildren, BuildEvent.cleanSubBuilders] ∧
    (prepareBuildStep true (some MULTI_INSTANCE)
      (BuildState.mk (some MONO_INSTANCE) true false)).1.evalProcessBuilderSet = false ∧
    ¬ BuildEvent.cleanChildren ∈ (prepareBuildStep true (some MULTI_INSTANCE)
      (BuildState.mk (some MULTI_INSTANCE) false true)).2 :=
  ⟨by decide,
    ((builder_mode_change_teardown (some MULTI_INSTANCE)
      (BuildState.mk (some MONO_INSTANCE) true false)).1 (by decide)).1,
    ((builder_mode_change_teardown (some MULTI_INSTANCE)
      (BuildState.mk (some MONO_INSTANCE) true false)).1 (by decide)).2.1 (by decide),
    ((builder_mode_change_teardown (some MULTI_INSTANCE)
      (BuildState.mk (some MULTI_INSTANCE) false true)).2 (by decide)).1⟩

/-- C10: when a changed generated-samples table of `n` scenarios imposes a
new scenario_df, every row is selected exactly when `n` does not exceed
the cap `MAX_SAMPLE_AUTO_BUILD_SCENARIOS = 1024` (the over-cap case logs
a warning and deselects every row), and row `i` is named
`scenario_<i+1>`. -/
theorem generated_samples_auto_activation (n i : Nat) (hi : i < n) :
    (scenarioDfFromGeneratedSamples MAX_SAMPLE_AUTO_BUILD_SCENARIOS n).1.length = n ∧
    ((scenarioDfFromGeneratedSamples MAX_SAMPLE_AUTO_BUILD_SCENARIOS n).1.getD i
        { selected := false, name := "" } =
      { selected := decide (n ≤ 1024), name := "scenario_" ++ toString (i + 1) }) ∧
    ((scenarioDfFromGeneratedSamples MAX_SAMPLE_AUTO_BUILD_SCENARIOS n).2 =
      !decide (n ≤ 1024)) := by
  unfold scenarioDfFromGeneratedSamples MAX_SAMPLE_AUTO_BUILD_SCENARIOS
  refine ⟨by simp, ?_, by simp⟩
  rw [List.getD_eq_getElem?_getD, List.getElem?_map, List.getElem?_range hi]
  simp

/-- C10 witness: with 3 generated scenarios all rows are auto-selected
and the second row is named `scenario_2`. -/
theorem generated_samples_auto_activation_witness :
    1 < 3 ∧
    (scenarioDfFromGeneratedSamples MAX_SAMPLE_AUTO_BUILD_SCENARIOS 3).1.getD 1
      { selected := false, name := "" } =
      { selected := true, name := "scenario_2" } ∧
    (scenarioDfFromGeneratedSamples MAX_SAMPLE_AUTO_BUILD_SCENARIOS 3).2 = false :=
  ⟨by decide,
    by
      have h := (generated_samples_auto_activation 3 1 (by decide)).2.1
      simpa using h,
    by
      have h := (generated_samples_auto_activation 3 1 (by decide)).2.2
      simpa using h⟩

end DriverEval
